import Mathlib

/-!
Verification development for `pylabrobot/resources/hamilton_parse.py`:
the parser that turns Hamilton vendor definition files (`.rck`/`.ctr`) into
plate / tip-rack / carrier descriptors.

Modelling conventions (shallow embedding):
* Python floats are modelled as `ℚ`; `round(x, 4)` is modelled by `round4`
  (round to nearest at 4 decimal places).  Both code-side and claim-side
  formulas use the same `round4`, so tie-breaking conventions do not affect
  any claim settled here.
* The field extractors `find_int` / `find_float` / `find_string` live in
  `pylabrobot/utils/file_parsing.py`, which is not part of this excerpt.
  They are modelled from the spec (§4.1): a `RawRecord` is a flat sequence
  of key/value tokens, looked up by exact key with first occurrence winning;
  the lookup fails (returns `none`, i.e. Python `ValueError`) when the key
  is absent or the value has the wrong type.  The inline raw-text site-count
  extraction `int(c.split("Site.Cnt\x01")[1].split("\x08")[0])` (and the
  `\x02` variant for MFX carriers) is modelled as the record fields
  `siteCnt1` / `siteCnt2`, since the byte-level token layout is external to
  the excerpt.
* Python's stable `sorted(sites, key=lambda c: c.y)` is modelled by the
  stable insertion sort `sortByY`.
* Python f-string formatting of floats is abstracted as an explicit
  formatting parameter `fmt : ℚ → String` threaded through the plate
  functions; no claim depends on the decimal rendering of a number.
* `Plate`, `TipRack`, carrier classes and `create_equally_spaced_2d` /
  `create_homogeneous_carrier_sites` are external constructors (spec §6);
  descriptors record the exact arguments the parser passes to them.
* Python exceptions are modelled by `Except String` with a message that
  mirrors the raised exception where the source specifies one.
-/

/-- A single value token of a vendor definition file. -/
inductive FV where
  | i (n : Int)
  | f (q : ℚ)
  | s (v : String)
deriving DecidableEq

/-- Modelled from the spec: a `RawRecord` is the decoded content of one
definition file, a flat sequence of key/value tokens (spec §3) together with
the two raw site-count markers (`Site.Cnt` delimited by `\x01` for
plate/tip carriers and by `\x02` for MFX carriers, spec §4.6), whose
byte-level extraction code is external to this excerpt. -/
structure RawRecord where
  fields : List (String × FV)
  siteCnt1 : Option Int := none
  siteCnt2 : Option Int := none
deriving DecidableEq

/-- Modelled from the spec (§4.1): locate the first value associated with the
key and convert it to an integer; `none` models the `ValueError` raised when
the key is absent or the value cannot be read at that type. -/
def find_int (key : String) (r : RawRecord) : Option Int :=
  match r.fields.find? (fun kv => kv.1 == key) with
  | some (_, FV.i n) => some n
  | _ => none

/-- Modelled from the spec (§4.1): float-typed field lookup. -/
def find_float (key : String) (r : RawRecord) : Option ℚ :=
  match r.fields.find? (fun kv => kv.1 == key) with
  | some (_, FV.f q) => some q
  | _ => none

/-- Modelled from the spec (§4.1): string-typed field lookup. -/
def find_string (key : String) (r : RawRecord) : Option String :=
  match r.fields.find? (fun kv => kv.1 == key) with
  | some (_, FV.s v) => some v
  | _ => none

/-- Characters of `os.path.basename`: everything after the last `/`. -/
def basenameL (l : List Char) : List Char :=
  (l.reverse.takeWhile (fun c => c ≠ '/')).reverse

/-- `os.path.basename` on strings. -/
def basename (s : String) : String :=
  String.mk (basenameL s.data)

/-- Python `filename.split(".")[0]`: the part before the first dot. -/
def stem (s : String) : String :=
  String.mk (s.data.takeWhile (fun c => c ≠ '.'))

/-- Python `str.startswith`. -/
def strStartsWith (s pre : String) : Bool :=
  pre.data.isPrefixOf s.data

/-- Python `str.endswith`. -/
def strEndsWith (s suffix : String) : Bool :=
  suffix.data.isSuffixOf s.data

/-- Left-to-right replacement of every non-overlapping occurrence of `pat`
(Python `str.replace` on character lists). -/
def replaceAux (pat rep : List Char) : List Char → List Char
  | [] => []
  | c :: cs =>
    if pat.isPrefixOf (c :: cs) then
      rep ++ replaceAux pat rep (cs.drop (pat.length - 1))
    else
      c :: replaceAux pat rep cs
termination_by l => l.length
decreasing_by
  · simp only [List.length_cons]
    have h1 : (cs.drop (pat.length - 1)).length ≤ cs.length := by
      simp
    omega
  · simp

/-- Python `str.replace(pat, rep)` (replace all occurrences). -/
def pyReplace (s pat rep : String) : String :=
  String.mk (replaceAux pat.data rep.data s.data)

/-- Concatenation of a list of strings in order. -/
def strJoin : List String → String
  | [] => ""
  | a :: l => a ++ strJoin l

/-- The resource kinds `get_resource_type` can report. -/
inductive ResourceType where
  | PlateCarrier
  | TipCarrier
  | MFXCarrier
  | TipRack
  | Plate
deriving DecidableEq, Repr

/-- Well bottom categories (`WellBottomType` of the resources layer). -/
inductive WellBottomType where
  | FLAT
  | V
  | U
  | UNKNOWN
deriving DecidableEq, Repr

/-- Cross-section categories (`CrossSectionType` of the resources layer). -/
inductive CrossSectionType where
  | CIRCLE
  | RECTANGLE
deriving DecidableEq, Repr

/-- The nine tip-geometry constructors imported from
`pylabrobot.resources.ml_star.tip_creators` (external catalog, spec §6). -/
inductive TipCreator where
  | low_volume_tip_no_filter
  | low_volume_tip_with_filter
  | standard_volume_tip_no_filter
  | standard_volume_tip_with_filter
  | high_volume_tip_no_filter
  | high_volume_tip_with_filter
  | four_ml_tip_with_filter
  | five_ml_tip
  | five_ml_tip_with_filter
deriving DecidableEq, Repr

/-- A 3-D coordinate (`Coordinate` of the resources layer). -/
structure Coord where
  x : ℚ
  y : ℚ
  z : ℚ
deriving DecidableEq, Repr

/-- The arguments `create_plate_for_writing` passes to the external grid
builder `create_equally_spaced_2d` for wells. -/
structure ItemsSpec where
  num_items_x : Int
  num_items_y : Int
  dx : ℚ
  dy : ℚ
  dz : ℚ
  item_dx : ℚ
  item_dy : ℚ
  size_x : ℚ
  size_y : ℚ
  size_z : ℚ
  bottom_type : WellBottomType
  cross_section_type : CrossSectionType
deriving DecidableEq, Repr

/-- The arguments passed to the `Plate` constructor. -/
structure PlateD where
  name : String
  size_x : ℚ
  size_y : ℚ
  size_z : ℚ
  num_items_x : Int
  num_items_y : Int
  items : ItemsSpec
  lid_height : ℚ
  model : String
deriving DecidableEq, Repr

/-- The arguments `create_tip_rack_for_writing` passes to
`create_equally_spaced_2d` for tip spots. -/
structure TipItemsSpec where
  num_items_x : Int
  num_items_y : Int
  dx : ℚ
  dy : ℚ
  dz : ℚ
  item_dx : ℚ
  item_dy : ℚ
  size_x : ℚ
  size_y : ℚ
  size_z : ℚ
  make_tip : TipCreator
deriving DecidableEq, Repr

/-- The arguments passed to the `TipRack` constructor. -/
structure TipRackD where
  name : String
  size_x : ℚ
  size_y : ℚ
  size_z : ℚ
  items : TipItemsSpec
  model : String
deriving DecidableEq, Repr

/-- The arguments passed to a carrier constructor (`PlateCarrier`,
`TipCarrier` or `MFXCarrier`): `sites` and the homogeneous site size are the
arguments of `create_homogeneous_carrier_sites`. -/
structure CarrierD where
  name : String
  size_x : ℚ
  size_y : ℚ
  size_z : ℚ
  sites : List Coord
  site_size_x : ℚ
  site_size_y : ℚ
  model : String
deriving DecidableEq, Repr

/-- Orientation-suffix normalization of `get_resource_type` (lines 55-58):
`filepath.replace("_L.rck", ".rck")` when the path ends in `_L.rck`, then
`filepath.replace("_P.rck", ".rck")` when the original basename ends in
`_P.rck`.  Note the replacements apply to every occurrence in the path. -/
def normalizeOrientation (filepath : String) : String :=
  let filename := basename filepath
  let fp1 := if strEndsWith filepath "_L.rck" then pyReplace filepath "_L.rck" ".rck" else filepath
  if strEndsWith filename "_P.rck" then pyReplace fp1 "_P.rck" ".rck" else fp1

/-- The content-inspection tail of `get_resource_type` (lines 75-81): a
`Cntr.1.file` entry means a plate, otherwise the classification fails. -/
def cntrFileCheck (r : RawRecord) (filename : String) : Except String ResourceType :=
  match find_string "Cntr.1.file" r with
  | some _ => Except.ok ResourceType.Plate
  | none => Except.error ("Unknown resource type for file " ++ filename)

/-- `get_resource_type` (lines 42-81).  The filesystem is modelled as a map
`fs` from paths to parsed records; `fs p = none` means the file does not
exist, and reading an existing file yields its record. -/
def get_resource_type (fs : String → Option RawRecord) (filepath : String) :
    Except String ResourceType :=
  let filename := basename filepath
  if strStartsWith filename "PLT_CAR_" then Except.ok ResourceType.PlateCarrier
  else if strStartsWith filename "TIP_CAR_" then Except.ok ResourceType.TipCarrier
  else if strStartsWith filename "MFX_CAR_" then Except.ok ResourceType.MFXCarrier
  else if strStartsWith filename "SMP_CAR_" then Except.error "SMP_CAR_ not supported yet"
  else
    match fs (normalizeOrientation filepath) with
    | none => Except.ok ResourceType.TipRack
    | some r =>
      match find_int "Category.0.Id" r with
      | some category0id =>
        if 170 ≤ category0id ∧ category0id < 180 then Except.ok ResourceType.TipRack
        else if 1000 ≤ category0id ∧ category0id < 1100 then Except.ok ResourceType.Plate
        else cntrFileCheck r filename
      | none => cntrFileCheck r filename

/-- `round(x, 4)`: round to four decimal places. -/
def round4 (q : ℚ) : ℚ :=
  (round (q * 10000) : ℤ) / 10000

/-- Insert a coordinate into a y-sorted list, before the first element whose
y is not smaller (so that a run of equal keys keeps its original order). -/
def insertY (c : Coord) : List Coord → List Coord
  | [] => [c]
  | d :: ds => if d.y < c.y then d :: insertY c ds else c :: d :: ds

/-- Python's stable `sorted(sites, key=lambda c: c.y)`. -/
def sortByY : List Coord → List Coord
  | [] => []
  | x :: xs => insertY x (sortByY xs)

/-- Lift a field lookup into the error monad: a missing or ill-typed float
field raises `ValueError`. -/
def fFloat (key : String) (r : RawRecord) : Except String ℚ :=
  match find_float key r with
  | some v => Except.ok v
  | none => Except.error ("ValueError: " ++ key)

/-- Integer field lookup in the error monad. -/
def fInt (key : String) (r : RawRecord) : Except String Int :=
  match find_int key r with
  | some v => Except.ok v
  | none => Except.error ("ValueError: " ++ key)

/-- String field lookup in the error monad. -/
def fStr (key : String) (r : RawRecord) : Except String String :=
  match find_string key r with
  | some v => Except.ok v
  | none => Except.error ("ValueError: " ++ key)

/-- `open(filepath)` against the modelled filesystem. -/
def openFile (fs : String → Option RawRecord) (p : String) : Except String RawRecord :=
  match fs p with
  | some r => Except.ok r
  | none => Except.error ("FileNotFoundError: " ++ p)

/-- The site-reading loop shared by the three carrier parsers
(lines 295-301 / 330-336 / 365-371): for `n` remaining indices starting at
`i`, read `Site.i.X/Y/Z` into the site list and overwrite `site_width` /
`site_height` with `Site.i.Dx` / `Site.i.Dy`; after the loop the width and
height hold the values of the last iteration. -/
def sitesLoop (r : RawRecord) :
    ℕ → ℕ → List Coord → Option ℚ → Option ℚ →
    Except String (List Coord × Option ℚ × Option ℚ)
  | _, 0, acc, w, h => Except.ok (acc, w, h)
  | i, n + 1, acc, _, _ => do
    let x ← fFloat ("Site." ++ toString i ++ ".X") r
    let y ← fFloat ("Site." ++ toString i ++ ".Y") r
    let z ← fFloat ("Site." ++ toString i ++ ".Z") r
    let site_width ← fFloat ("Site." ++ toString i ++ ".Dx") r
    let site_height ← fFloat ("Site." ++ toString i ++ ".Dy") r
    sitesLoop r (i + 1) n (acc ++ [⟨x, y, z⟩]) (some site_width) (some site_height)

/-- The `Site.Cnt` raw extraction for plate/tip carriers; a missing marker or
unparsable count raises. -/
def siteCountOf1 (r : RawRecord) : Except String Int :=
  match r.siteCnt1 with
  | some n => Except.ok n
  | none => Except.error "ValueError: Site.Cnt"

/-- The `Site.Cnt` raw extraction for MFX carriers (`\x02` delimiter). -/
def siteCountOf2 (r : RawRecord) : Except String Int :=
  match r.siteCnt2 with
  | some n => Except.ok n
  | none => Except.error "ValueError: Site.Cnt"

/-- Using `site_width` after the loop when the loop never ran (`count = 0`)
is Python's `NameError`. -/
def loopVar (o : Option ℚ) : Except String ℚ :=
  match o with
  | some v => Except.ok v
  | none => Except.error "NameError: site_width"

/-- `create_plate_carrier_for_writing` (lines 287-319). -/
def create_plate_carrier_for_writing (fs : String → Option RawRecord)
    (filepath : String) : Except String (CarrierD × String) := do
  let c ← openFile fs filepath
  let site_count ← siteCountOf1 c
  let (sites0, w0, h0) ← sitesLoop c 1 site_count.toNat [] none none
  let sites := sortByY sites0
  let size_x ← fFloat "Dim.Dx" c
  let size_y ← fFloat "Dim.Dy" c
  let size_z ← fFloat "Dim.Dz" c
  let description ← fStr "Description" c
  let cname := stem (basename filepath)
  let site_width ← loopVar w0
  let site_height ← loopVar h0
  Except.ok ({ name := cname, size_x := size_x, size_y := size_y, size_z := size_z,
               sites := sites, site_size_x := site_width, site_size_y := site_height,
               model := cname }, description)

/-- `create_tip_carrier_for_writing` (lines 322-354); identical to the plate
carrier apart from the constructed class. -/
def create_tip_carrier_for_writing (fs : String → Option RawRecord)
    (filepath : String) : Except String (CarrierD × String) := do
  let c ← openFile fs filepath
  let site_count ← siteCountOf1 c
  let (sites0, w0, h0) ← sitesLoop c 1 site_count.toNat [] none none
  let sites := sortByY sites0
  let size_x ← fFloat "Dim.Dx" c
  let size_y ← fFloat "Dim.Dy" c
  let size_z ← fFloat "Dim.Dz" c
  let description ← fStr "Description" c
  let cname := stem (basename filepath)
  let site_width ← loopVar w0
  let site_height ← loopVar h0
  Except.ok ({ name := cname, size_x := size_x, size_y := size_y, size_z := size_z,
               sites := sites, site_size_x := site_width, site_size_y := site_height,
               model := cname }, description)

/-- The MFX visibility filter (line 375):
`[s for i, s in enumerate(sites) if find_int(f"Site.{i}.Visible", c) == 1]`.
`i` is the 0-based position in the already-sorted list, and a missing
`Site.i.Visible` key raises out of the comprehension. -/
def flexFilterLoop (r : RawRecord) : ℕ → List Coord → Except String (List Coord)
  | _, [] => Except.ok []
  | i, s :: rest => do
    let v ← fInt ("Site." ++ toString i ++ ".Visible") r
    let tail ← flexFilterLoop r (i + 1) rest
    if v = 1 then Except.ok (s :: tail) else Except.ok tail

/-- `create_flex_carrier_for_writing` (lines 357-392). -/
def create_flex_carrier_for_writing (fs : String → Option RawRecord)
    (filepath : String) : Except String (CarrierD × String) := do
  let c ← openFile fs filepath
  let site_count ← siteCountOf2 c
  let (sites0, w0, h0) ← sitesLoop c 1 site_count.toNat [] none none
  let sorted := sortByY sites0
  let sites ← flexFilterLoop c 0 sorted
  let size_x ← fFloat "Dim.Dx" c
  let size_y ← fFloat "Dim.Dy" c
  let size_z ← fFloat "Dim.Dz" c
  let description ← fStr "Description" c
  let cname := stem (basename filepath)
  let site_width ← loopVar w0
  let site_height ← loopVar h0
  Except.ok ({ name := cname, size_x := size_x, size_y := size_y, size_z := size_z,
               sites := sites, site_size_x := site_width, site_size_y := site_height,
               model := cname }, description)

/-- `rck2ctr` (lines 122-127): derive the `.ctr` path from the `.rck` path. -/
def rck2ctr (fn : String) : String :=
  pyReplace (pyReplace (pyReplace (pyReplace fn "_P.rck" ".ctr") "_L.rck" ".ctr")
    ".rck" ".ctr") "ProtCryst" "Post"

/-- The bottom-shape code table (lines 156-164); unmapped codes degrade to
`UNKNOWN`. -/
def wellBottomTypeOf (code : Int) : WellBottomType :=
  if code = 0 then WellBottomType.FLAT
  else if code = 1 then WellBottomType.FLAT
  else if code = 3 then WellBottomType.V
  else if code = 4 then WellBottomType.U
  else if code = 5 then WellBottomType.V
  else WellBottomType.UNKNOWN

/-- The cross-section code table (lines 168-175); unmapped codes default to
`CIRCLE`. -/
def crossSectionTypeOf (code : Int) : CrossSectionType :=
  if code = 0 then CrossSectionType.CIRCLE
  else if code = 1 then CrossSectionType.RECTANGLE
  else CrossSectionType.CIRCLE

/-- The volume-equation loop of `create_plate_for_writing` (lines 133-145):
iterate segment index from `N` down to `1`, appending for the bottommost
segment (index `N`) the clamped base term and for every other segment a
conditional addition, while accumulating `height_so_far`.  The argument of
the recursion is the next index to process; `acc` is `vol_eqn_func` and
`hsf` is `height_so_far`. -/
def volEqnLoopR (fmt : ℚ → String) (c2 : RawRecord) (N : ℕ) :
    ℕ → String → ℚ → Except String (String × ℚ)
  | 0, acc, hsf => Except.ok (acc, hsf)
  | i + 1, acc, hsf => do
    let vol_eqn ← fStr (toString (i + 1) ++ ".EqnOfVol") c2
    let section_max_height ← fFloat (toString (i + 1) ++ ".Max") c2
    let line :=
      if i + 1 = N then
        "volume = " ++ pyReplace vol_eqn "h" ("min(h, " ++ fmt section_max_height ++ ")") ++ "\n"
      else
        "if h <= " ++ fmt section_max_height ++ ":\n" ++
          "  volume += " ++ pyReplace vol_eqn "h" ("(h-" ++ fmt hsf ++ ")") ++ "\n"
    volEqnLoopR fmt c2 N i (acc ++ line) (hsf + section_max_height)

/-- The synthesized volume-function text (lines 133-148): the loop output
followed by the out-of-range guard and the `return volume` line. -/
def vol_eqn_func_of (fmt : ℚ → String) (c2 : RawRecord) (cname : String) (N : ℕ) :
    Except String String := do
  let (acc, height_so_far) ← volEqnLoopR fmt c2 N N "" 0
  Except.ok (acc ++ "if h > " ++ fmt height_so_far ++ ":\n" ++
    "  raise ValueError(f\"Height {h} is too large for " ++ cname ++ "\")\n" ++
    "return volume")

/-- `create_plate_for_writing` (lines 84-212).  `fmt` abstracts Python's
f-string rendering of floats. -/
def create_plate_for_writing (fmt : ℚ → String) (fs : String → Option RawRecord)
    (filepath : String) (ctr_filepath : Option String) :
    Except String (PlateD × String × String) := do
  let c ← openFile fs filepath
  let size_x ← fFloat "Dim.Dx" c
  let size_y ← fFloat "Dim.Dy" c
  let size_z ← fFloat "Dim.Dz" c
  let num_items_x ← fInt "Columns" c
  let num_items_y ← fInt "Rows" c
  let well_dx ← fFloat "Dx" c
  let well_dy ← fFloat "Dy" c
  let bndry_x ← fFloat "BndryX" c
  let bndry_y ← fFloat "BndryY" c
  let dx := round4 (bndry_x - well_dx / 2)
  let dy := round4 (bndry_y - well_dy / 2)
  let filename := basename filepath
  let cname := stem filename
  let description := cname
  let well_dy := if cname = "Cos_96_ProtCryst" ∧ well_dy = 4.5 then 9.0 else well_dy
  let ctrPath := ctr_filepath.getD (rck2ctr filepath)
  let c2 ← openFile fs ctrPath
  let num_segments ← fInt "Segments" c2
  let vol_eqn_func ← vol_eqn_func_of fmt c2 cname num_segments.toNat
  let well_size_x ← fFloat "Dim.Dx" c2
  let well_size_y ← fFloat "Dim.Dy" c2
  let well_bottom_type_code ← fInt (toString num_segments ++ ".Shape") c2
  let well_bottom_type := wellBottomTypeOf well_bottom_type_code
  let cross_section_type_code ← fInt "1.Shape" c2
  let cross_section_type := crossSectionTypeOf cross_section_type_code
  let well_size_z ← fFloat "Depth" c2
  let dz := (find_float "BaseMM" c2).getD 0
  Except.ok ({ name := cname, size_x := size_x, size_y := size_y, size_z := size_z,
               num_items_x := num_items_x, num_items_y := num_items_y,
               items := { num_items_x := num_items_x, num_items_y := num_items_y,
                          dx := dx + (well_dx - well_size_x) / 2,
                          dy := dy + (well_dy - well_size_y) / 2,
                          dz := dz, item_dx := well_dx, item_dy := well_dy,
                          size_x := well_size_x, size_y := well_size_y,
                          size_z := well_size_z, bottom_type := well_bottom_type,
                          cross_section_type := cross_section_type },
               lid_height := 10, model := cname }, description, vol_eqn_func)

/-- The nine-entry tip catalog `tip_table` (lines 219-229). -/
def tip_table (t : String) : Option TipCreator :=
  if t = "MlStar4mlTipWithFilter" then some TipCreator.four_ml_tip_with_filter
  else if t = "MlStar5mlTipWithFilter" then some TipCreator.five_ml_tip_with_filter
  else if t = "MlStar10ulLowVolumeTip" then some TipCreator.low_volume_tip_no_filter
  else if t = "MlStar10ulLowVolumeTipWithFilter" then some TipCreator.low_volume_tip_with_filter
  else if t = "MlStar1000ulHighVolumeTipWithFilter" then some TipCreator.high_volume_tip_with_filter
  else if t = "MlStar1000ulHighVolumeTip" then some TipCreator.high_volume_tip_no_filter
  else if t = "MlStar5mlTip" then some TipCreator.five_ml_tip
  else if t = "MlStar300ulStandardVolumeTipWithFilter" then some TipCreator.standard_volume_tip_with_filter
  else if t = "MlStar300ulStandardVolumeTip" then some TipCreator.standard_volume_tip_no_filter
  else none

/-- `create_tip_rack_for_writing` (lines 215-284). -/
def create_tip_rack_for_writing (fs : String → Option RawRecord)
    (filepath : String) : Except String (TipRackD × String) := do
  let c ← openFile fs filepath
  let size_x ← fFloat "Dim.Dx" c
  let size_y ← fFloat "Dim.Dy" c
  let size_z ← fFloat "Dim.Dz" c
  let tip_type ← match find_string "PropertyValue.6" c with
    | some t => Except.ok t
    | none => fStr "PropertyValue.4" c
  let tip_creator ← match tip_table tip_type with
    | some cr => Except.ok cr
    | none => Except.error ("KeyError: " ++ tip_type)
  let tip_size_x ← fFloat "Dx" c
  let tip_size_y ← fFloat "Dy" c
  let bndry_x ← fFloat "BndryX" c
  let bndry_y ← fFloat "BndryY" c
  let dx := round4 (bndry_x - tip_size_x / 2)
  let dy := round4 (bndry_y - tip_size_y / 2)
  let dz ← fFloat "Cntr.1.base" c
  let num_items_x ← fInt "Columns" c
  let num_items_y ← fInt "Rows" c
  let cname ← match (stem (basename filepath)).data with
    | [] => Except.error "IndexError: string index out of range"
    | ch :: rest =>
      Except.ok (if ch = '4' then "Four" ++ String.mk rest
                 else if ch = '5' then "Five" ++ String.mk rest
                 else String.mk (ch :: rest))
  let description ← fStr "Description" c
  Except.ok ({ name := cname, size_x := size_x, size_y := size_y, size_z := size_z,
               items := { num_items_x := num_items_x, num_items_y := num_items_y,
                          dx := dx, dy := dy, dz := dz,
                          item_dx := tip_size_x, item_dy := tip_size_y,
                          size_x := tip_size_x, size_y := tip_size_y, size_z := size_z,
                          make_tip := tip_creator },
               model := cname }, description)

/-- `create_plate` (lines 395-404): the public by-name entry point discards
the description and volume text and overrides the name. -/
def create_plate (fmt : ℚ → String) (fs : String → Option RawRecord)
    (filepath : String) (name : String) (ctr_filepath : Option String) :
    Except String PlateD :=
  (create_plate_for_writing fmt fs filepath ctr_filepath).map
    (fun t => { t.1 with name := name })

/-- `create_tip_rack` (lines 407-416). -/
def create_tip_rack (fs : String → Option RawRecord) (filepath : String)
    (name : String) : Except String TipRackD :=
  (create_tip_rack_for_writing fs filepath).map (fun t => { t.1 with name := name })

/-- `create_plate_carrier` (lines 419-428). -/
def create_plate_carrier (fs : String → Option RawRecord) (filepath : String)
    (name : String) : Except String CarrierD :=
  (create_plate_carrier_for_writing fs filepath).map (fun t => { t.1 with name := name })

/-- `create_tip_carrier` (lines 431-440). -/
def create_tip_carrier (fs : String → Option RawRecord) (filepath : String)
    (name : String) : Except String CarrierD :=
  (create_tip_carrier_for_writing fs filepath).map (fun t => { t.1 with name := name })

/-- `create_flex_carrier` (lines 443-452). -/
def create_flex_carrier (fs : String → Option RawRecord) (filepath : String)
    (name : String) : Except String CarrierD :=
  (create_flex_carrier_for_writing fs filepath).map (fun t => { t.1 with name := name })

/-- A concrete stand-in for Python's float rendering, used only to
instantiate the abstract formatting parameter in witnesses. -/
def pyFmt (q : ℚ) : String :=
  toString q.num ++ "/" ++ toString q.den

/-- Claim-side (C1): the sum of the max heights of all segments strictly
below segment `i` (indices grow downwards, so these are the indices
`i+1 .. N`). -/
def segBelowSum (m : ℕ → ℚ) (N i : ℕ) : ℚ :=
  ∑ j in Finset.range (N - i), m (i + 1 + j)

/-- Claim-side (C1): the base term emitted for the bottommost segment `N`,
with every occurrence of `h` replaced by the clamped height. -/
def claimBaseTerm (fmt : ℚ → String) (e : ℕ → String) (m : ℕ → ℚ) (N : ℕ) : String :=
  "volume = " ++ pyReplace (e N) "h" ("min(h, " ++ fmt (m N) ++ ")") ++ "\n"

/-- Claim-side (C1): the conditional addition emitted for a segment `i < N`,
with `h` replaced by `h` minus the summed max heights of the segments below
`i`. -/
def claimCondLine (fmt : ℚ → String) (e : ℕ → String) (m : ℕ → ℚ) (N i : ℕ) : String :=
  "if h <= " ++ fmt (m i) ++ ":\n" ++
    "  volume += " ++ pyReplace (e i) "h" ("(h-" ++ fmt (segBelowSum m N i) ++ ")") ++ "\n"

/-- Claim-side (C1): the final out-of-range guard naming the resource, fired
when `h` exceeds the total accumulated height. -/
def claimGuard (fmt : ℚ → String) (m : ℕ → ℚ) (N : ℕ) (cname : String) : String :=
  "if h > " ++ fmt (segBelowSum m N 0) ++ ":\n" ++
    "  raise ValueError(f\"Height {h} is too large for " ++ cname ++ "\")\n" ++
    "return volume"

/-- Claim-side (C1): the whole synthesized text as the claim describes it —
the base term for segment `N`, then one conditional per segment
`i = N-1, …, 1` in descending order, then the guard. -/
def claimVolText (fmt : ℚ → String) (cname : String) (e : ℕ → String) (m : ℕ → ℚ)
    (N : ℕ) : String :=
  claimBaseTerm fmt e m N ++
    strJoin (((List.range (N - 1)).reverse).map (fun k => claimCondLine fmt e m N (k + 1))) ++
    claimGuard fmt m N cname

/-- Claim-side (C3): classification of a non-carrier file as the claim words
it — missing canonical file means tip rack; otherwise the category id ranges
170–179 / 1000–1099, then the `Cntr.1.file` presence check, then the
unknown-resource failure naming the file. -/
def claimClassify (fs : String → Option RawRecord) (canonicalPath filename : String) :
    Except String ResourceType :=
  match fs canonicalPath with
  | none => Except.ok ResourceType.TipRack
  | some r =>
    match find_int "Category.0.Id" r with
    | some category0id =>
      if 170 ≤ category0id ∧ category0id ≤ 179 then Except.ok ResourceType.TipRack
      else if 1000 ≤ category0id ∧ category0id ≤ 1099 then Except.ok ResourceType.Plate
      else if (find_string "Cntr.1.file" r).isSome then Except.ok ResourceType.Plate
      else Except.error ("Unknown resource type for file " ++ filename)
    | none =>
      if (find_string "Cntr.1.file" r).isSome then Except.ok ResourceType.Plate
      else Except.error ("Unknown resource type for file " ++ filename)

/-- No carrier filename prefix applies (the scope condition of C3/C6). -/
def notCarrierPrefixed (filename : String) : Prop :=
  strStartsWith filename "PLT_CAR_" = false ∧ strStartsWith filename "TIP_CAR_" = false ∧
    strStartsWith filename "MFX_CAR_" = false ∧ strStartsWith filename "SMP_CAR_" = false

/-- The only occurrence of `pat` in `l` is the final one (the condition under
which Python's replace-all agrees with stripping a suffix). -/
def onlyFinalMatch (pat l : List Char) : Prop :=
  ∀ i, i < l.length → pat.isPrefixOf (l.drop i) = true → i + pat.length = l.length

/-- Claim-side (C2): read the carrier sites together with their original
source indices `1 .. n`. -/
def readIndexedSites (r : RawRecord) : ℕ → ℕ → Option (List (ℕ × Coord))
  | _, 0 => some []
  | i, n + 1 => do
    let x ← find_float ("Site." ++ toString i ++ ".X") r
    let y ← find_float ("Site." ++ toString i ++ ".Y") r
    let z ← find_float ("Site." ++ toString i ++ ".Z") r
    let rest ← readIndexedSites r (i + 1) n
    some ((i, (⟨x, y, z⟩ : Coord)) :: rest)

/-- Stable insertion into an index-tagged y-sorted list. -/
def insertIdxY (c : ℕ × Coord) : List (ℕ × Coord) → List (ℕ × Coord)
  | [] => [c]
  | d :: ds => if d.2.y < c.2.y then d :: insertIdxY c ds else c :: d :: ds

/-- Stable sort of index-tagged sites by ascending y. -/
def sortIdxByY : List (ℕ × Coord) → List (ℕ × Coord)
  | [] => []
  | x :: xs => insertIdxY x (sortIdxByY xs)

/-- Claim-side (C2): keep exactly the sites whose own visibility flag — the
one looked up at the site's original source index — equals 1. -/
def filterByOwnVisible (r : RawRecord) : List (ℕ × Coord) → Option (List Coord)
  | [] => some []
  | (i, s) :: rest => do
    let v ← find_int ("Site." ++ toString i ++ ".Visible") r
    let tail ← filterByOwnVisible r rest
    if v = 1 then some (s :: tail) else some tail

/-- Claim-side (C2): the MFX site list as the claim describes it — sites
read with their source indices, sorted by ascending y, then filtered by
each site's own visibility flag. -/
def claimFlexSites (r : RawRecord) : Option (List Coord) := do
  let n ← r.siteCnt2
  let indexed ← readIndexedSites r 1 n.toNat
  let sorted := sortIdxByY indexed
  let kept ← filterByOwnVisible r sorted
  some kept

/-- Claim-side (C4): the corner formula exactly as the claim words it —
boundary minus half the *item size*, rounded to 4 decimals, plus the border
correction `(cell_pitch − item_size)/2`. -/
def claimCornerFormula (bndry cell_pitch item_size : ℚ) : ℚ :=
  round4 (bndry - item_size / 2) + (cell_pitch - item_size) / 2

/-- The visibility filter of the flex parser as a pure function of
a visibility assignment: position `i` in the (sorted) list is kept when
`vis i = 1`. -/
def visFilter (vis : ℕ → Int) : ℕ → List Coord → List Coord
  | _, [] => []
  | i, s :: rest =>
    if vis i = 1 then s :: visFilter vis (i + 1) rest else visFilter vis (i + 1) rest

/-- Projection: the grid corner x actually passed to the well-grid builder. -/
def plateDxOf (e : Except String (PlateD × String × String)) : Option ℚ :=
  e.toOption.map (fun t => t.1.items.dx)

/-- Projection: the grid corner y actually passed to the well-grid builder. -/
def plateDyOf (e : Except String (PlateD × String × String)) : Option ℚ :=
  e.toOption.map (fun t => t.1.items.dy)

/-- Projection: the row pitch actually passed to the well-grid builder. -/
def plateItemDyOf (e : Except String (PlateD × String × String)) : Option ℚ :=
  e.toOption.map (fun t => t.1.items.item_dy)

/-- Projection: the site list of a parsed carrier. -/
def carrierSitesOf (e : Except String (CarrierD × String)) : Option (List Coord) :=
  e.toOption.map (fun t => t.1.sites)

/-- Projection: the tip constructor of a parsed tip rack. -/
def tipMakeTipOf (e : Except String (TipRackD × String)) : Option TipCreator :=
  e.toOption.map (fun t => t.1.items.make_tip)

/-- Projection: the homogeneous site size of a parsed carrier. -/
def carrierSiteSizeOf (e : Except String (CarrierD × String)) : Option (ℚ × ℚ) :=
  e.toOption.map (fun t => (t.1.site_size_x, t.1.site_size_y))

/-- A two-segment `.ctr` record matching the spec §8 scenario:
segment 1 (top) `3.14*h*h` with max 10, segment 2 (bottom) `2*h` with max 5. -/
def rC1ctr : RawRecord :=
  ⟨[("1.EqnOfVol", FV.s "3.14*h*h"), ("1.Max", FV.f 10),
    ("2.EqnOfVol", FV.s "2*h"), ("2.Max", FV.f 5)], none, none⟩

/-- An MFX carrier record with two sites already in ascending y order:
site 1 (y = 1) carries visibility flag 0, site 2 (y = 2) carries flag 1; a
`Site.0.Visible` key is also present, as consulted by the 0-based filter. -/
def recC2 : RawRecord :=
  ⟨[("Site.1.X", FV.f 0), ("Site.1.Y", FV.f 1), ("Site.1.Z", FV.f 0),
    ("Site.1.Dx", FV.f 10), ("Site.1.Dy", FV.f 10),
    ("Site.2.X", FV.f 5), ("Site.2.Y", FV.f 2), ("Site.2.Z", FV.f 0),
    ("Site.2.Dx", FV.f 12), ("Site.2.Dy", FV.f 12),
    ("Site.0.Visible", FV.i 1), ("Site.1.Visible", FV.i 0), ("Site.2.Visible", FV.i 1),
    ("Dim.Dx", FV.f 100), ("Dim.Dy", FV.f 200), ("Dim.Dz", FV.f 50),
    ("Description", FV.s "MFX test carrier")], none, some 2⟩

/-- Filesystem holding only the MFX carrier file of `recC2`. -/
def fsC2 : String → Option RawRecord :=
  fun p => if p = "MFX_CAR_TEST2.tml" then some recC2 else none

/-- A plate-classified record: `Category.0.Id` in the plate range. -/
def recC6 : RawRecord := ⟨[("Category.0.Id", FV.i 1001)], none, none⟩

/-- Filesystem for the C6 counterexample: only `x_L.rck` exists. -/
def fsC6 : String → Option RawRecord :=
  fun p => if p = "x_L.rck" then some recC6 else none

/-- A `.rck` plate record: 1×1 grid, cell pitch 9, boundary (10, 11). -/
def rPlate : RawRecord :=
  ⟨[("Dim.Dx", FV.f 127), ("Dim.Dy", FV.f 86), ("Dim.Dz", FV.f 14),
    ("Columns", FV.i 1), ("Rows", FV.i 1),
    ("Dx", FV.f 9), ("Dy", FV.f 9),
    ("BndryX", FV.f 10), ("BndryY", FV.f 11)], none, none⟩

/-- The companion `.ctr` record of `rPlate`: one segment, well footprint 8. -/
def rCtr : RawRecord :=
  ⟨[("Segments", FV.i 1), ("1.EqnOfVol", FV.s "h"), ("1.Max", FV.f 10),
    ("Dim.Dx", FV.f 8), ("Dim.Dy", FV.f 8), ("1.Shape", FV.i 0),
    ("Depth", FV.f 10)], none, none⟩

/-- A `Cos_96_ProtCryst` `.rck` record whose row pitch `Dy` reads as 4.5. -/
def rCos : RawRecord :=
  ⟨[("Dim.Dx", FV.f 127), ("Dim.Dy", FV.f 86), ("Dim.Dz", FV.f 14),
    ("Columns", FV.i 12), ("Rows", FV.i 8),
    ("Dx", FV.f 9), ("Dy", FV.f (9 / 2)),
    ("BndryX", FV.f 10), ("BndryY", FV.f 11)], none, none⟩

/-- A tip-rack record with the tip type in `PropertyValue.6`. -/
def rTip : RawRecord :=
  ⟨[("Dim.Dx", FV.f 120), ("Dim.Dy", FV.f 80), ("Dim.Dz", FV.f 60),
    ("PropertyValue.6", FV.s "MlStar300ulStandardVolumeTip"),
    ("Dx", FV.f 9), ("Dy", FV.f 9),
    ("BndryX", FV.f 10), ("BndryY", FV.f 10), ("Cntr.1.base", FV.f 2),
    ("Columns", FV.i 12), ("Rows", FV.i 8),
    ("Description", FV.s "Test tip rack")], none, none⟩

/-- Like `rTip` but with an unrecognized tip-type string. -/
def rTipBad : RawRecord :=
  ⟨[("Dim.Dx", FV.f 120), ("Dim.Dy", FV.f 80), ("Dim.Dz", FV.f 60),
    ("PropertyValue.6", FV.s "NotATip"),
    ("Dx", FV.f 9), ("Dy", FV.f 9),
    ("BndryX", FV.f 10), ("BndryY", FV.f 10), ("Cntr.1.base", FV.f 2),
    ("Columns", FV.i 12), ("Rows", FV.i 8),
    ("Description", FV.s "Test tip rack")], none, none⟩

/-- A two-site carrier record usable as plate, tip and MFX carrier: site 1
has width 95 and height 120, site 2 (the highest-indexed site) width 97 and
height 130. -/
def rCar : RawRecord :=
  ⟨[("Site.1.X", FV.f 10), ("Site.1.Y", FV.f 20), ("Site.1.Z", FV.f 5),
    ("Site.1.Dx", FV.f 95), ("Site.1.Dy", FV.f 120),
    ("Site.2.X", FV.f 10), ("Site.2.Y", FV.f 115), ("Site.2.Z", FV.f 5),
    ("Site.2.Dx", FV.f 97), ("Site.2.Dy", FV.f 130),
    ("Site.0.Visible", FV.i 1), ("Site.1.Visible", FV.i 1),
    ("Dim.Dx", FV.f 135), ("Dim.Dy", FV.f 497), ("Dim.Dz", FV.f 130),
    ("Description", FV.s "Test carrier")], some 2, some 2⟩

/-- Like `rCar` but with different width/height values for the lower-indexed
site 1 (40 and 41 instead of 95 and 120). -/
def rCar' : RawRecord :=
  ⟨[("Site.1.X", FV.f 10), ("Site.1.Y", FV.f 20), ("Site.1.Z", FV.f 5),
    ("Site.1.Dx", FV.f 40), ("Site.1.Dy", FV.f 41),
    ("Site.2.X", FV.f 10), ("Site.2.Y", FV.f 115), ("Site.2.Z", FV.f 5),
    ("Site.2.Dx", FV.f 97), ("Site.2.Dy", FV.f 130),
    ("Site.0.Visible", FV.i 1), ("Site.1.Visible", FV.i 1),
    ("Dim.Dx", FV.f 135), ("Dim.Dy", FV.f 497), ("Dim.Dz", FV.f 130),
    ("Description", FV.s "Test carrier")], some 2, some 2⟩

/-- A filesystem with one file of every kind, for end-to-end witnesses. -/
def fsAll : String → Option RawRecord :=
  fun p =>
    if p = "TestPlate.rck" then some rPlate
    else if p = "TestPlate.ctr" then some rCtr
    else if p = "Cos_96_ProtCryst.rck" then some rCos
    else if p = "Cos_96_Post.ctr" then some rCtr
    else if p = "StandardTips.tml" then some rTip
    else if p = "BadTips.tml" then some rTipBad
    else if p = "PLT_CAR_TEST.tml" then some rCar
    else if p = "TIP_CAR_TEST.tml" then some rCar
    else if p = "MFX_CAR_TEST2.tml" then some recC2
    else none

/-- `fsAll` with the carrier file replaced by `rCar'`. -/
def fsAll' : String → Option RawRecord :=
  fun p => if p = "PLT_CAR_TEST.tml" then some rCar' else fsAll p

theorem str_ext {a b : String} (h : a.data = b.data) : a = b :=
  congrArg String.mk h

theorem str_data_append (a b : String) : (a ++ b).data = a.data ++ b.data := by
  cases a; cases b; rfl

theorem str_append_assoc (a b c : String) : a ++ b ++ c = a ++ (b ++ c) :=
  str_ext (by simp [str_data_append])

theorem str_append_empty (a : String) : a ++ "" = a :=
  str_ext (by simp [str_data_append])

theorem str_empty_append (a : String) : "" ++ a = a :=
  str_ext (by simp [str_data_append])

theorem segBelowSum_succ (m : ℕ → ℚ) (N i : ℕ) (h : i < N) :
    segBelowSum m N i = m (i + 1) + segBelowSum m N (i + 1) := by
  unfold segBelowSum
  have hNi : N - i = (N - (i + 1)) + 1 := by omega
  rw [hNi, Finset.sum_range_succ']
  have h2 : ∀ j ∈ Finset.range (N - (i + 1)), m (i + 1 + (j + 1)) = m (i + 1 + 1 + j) := by
    intro j _
    congr 1
    omega
  rw [Finset.sum_congr rfl h2, add_comm]

theorem segBelowSum_last (m : ℕ → ℚ) (N : ℕ) (h : 1 ≤ N) :
    segBelowSum m N (N - 1) = m N := by
  unfold segBelowSum
  have h1 : N - (N - 1) = 1 := by omega
  rw [h1, Finset.sum_range_one]
  congr 1
  omega

theorem volEqnLoopR_spec (fmt : ℚ → String) (c2 : RawRecord) (e : ℕ → String)
    (m : ℕ → ℚ) (N : ℕ)
    (h : ∀ i, i < N + 1 → 1 ≤ i →
      find_string (toString i ++ ".EqnOfVol") c2 = some (e i) ∧
      find_float (toString i ++ ".Max") c2 = some (m i)) :
    ∀ i, i < N → ∀ acc,
      volEqnLoopR fmt c2 N i acc (segBelowSum m N i) =
        Except.ok
          (acc ++ strJoin (((List.range i).reverse).map
             (fun k => claimCondLine fmt e m N (k + 1))),
           segBelowSum m N 0) := by
  intro i
  induction i with
  | zero =>
    intro _ acc
    simp [volEqnLoopR, strJoin, str_append_empty]
  | succ i ih =>
    intro hiN acc
    have hfind := h (i + 1) (by omega) (by omega)
    have hne : ¬ (i + 1 = N) := by omega
    have hsum : segBelowSum m N (i + 1) + m (i + 1) = segBelowSum m N i := by
      rw [segBelowSum_succ m N i (by omega)]
      ring
    have key := ih (by omega) (acc ++ claimCondLine fmt e m N (i + 1))
    simp only [volEqnLoopR, fStr, fFloat, hfind.1, hfind.2, if_neg hne]
    show volEqnLoopR fmt c2 N i (acc ++ claimCondLine fmt e m N (i + 1))
      (segBelowSum m N (i + 1) + m (i + 1)) = _
    rw [hsum, key]
    rw [List.range_succ, List.reverse_append]
    simp [List.singleton_append, strJoin, str_append_assoc]

/-- C1: for a plate `.ctr` record with `N ≥ 1` segments whose equations and
max heights are `e i` and `m i` (index 1 = top, `N` = bottom), the
volume-function text synthesized by `create_plate_for_writing` is built by
iterating from `N` down to `1`: the base term for segment `N` with every
`h` replaced by `min(h, max_N)`, then for each `i < N` a conditional
`if h <= max_i` adding the segment's equation with `h` replaced by
`(h - S_i)` where `S_i` sums the max heights of all segments below `i`, and
finally a guard raising an out-of-range error naming the resource whenever
`h` exceeds the total accumulated height. -/
theorem C1_volume_function_text (fmt : ℚ → String) (cname : String) (c2 : RawRecord)
    (e : ℕ → String) (m : ℕ → ℚ) (N : ℕ) (hN : 1 ≤ N)
    (h : ∀ i, i < N + 1 → 1 ≤ i →
      find_string (toString i ++ ".EqnOfVol") c2 = some (e i) ∧
      find_float (toString i ++ ".Max") c2 = some (m i)) :
    vol_eqn_func_of fmt c2 cname N = Except.ok (claimVolText fmt cname e m N) := by
  obtain ⟨K, rfl⟩ : ∃ K, N = K + 1 := ⟨N - 1, by omega⟩
  have hfind := h (K + 1) (by omega) (by omega)
  have hlast : (0 : ℚ) + m (K + 1) = segBelowSum m (K + 1) K := by
    rw [zero_add]
    have h2 := segBelowSum_last m (K + 1) (by omega)
    simpa using h2.symm
  have key := volEqnLoopR_spec fmt c2 e m (K + 1) h K (by omega)
    ("" ++ claimBaseTerm fmt e m (K + 1))
  have hloop : volEqnLoopR fmt c2 (K + 1) (K + 1) "" 0 =
      Except.ok ("" ++ claimBaseTerm fmt e m (K + 1) ++
        strJoin (((List.range K).reverse).map (fun k => claimCondLine fmt e m (K + 1) (k + 1))),
        segBelowSum m (K + 1) 0) := by
    simp only [volEqnLoopR, fStr, fFloat, hfind.1, hfind.2, if_pos]
    show volEqnLoopR fmt c2 (K + 1) K ("" ++ claimBaseTerm fmt e m (K + 1)) (0 + m (K + 1)) = _
    rw [hlast]
    exact key
  simp only [vol_eqn_func_of, hloop]
  show Except.ok _ = _
  simp only [Except.ok.injEq]
  apply str_ext
  simp [claimVolText, claimGuard, str_data_append, List.append_assoc,
    show "".data = ([] : List Char) from rfl]

/-- Witness for C1 at the spec §8 scenario: two segments, top `3.14*h*h`
(max 10) and bottom `2*h` (max 5). -/
theorem C1_volume_function_text_witness :
    vol_eqn_func_of pyFmt rC1ctr "Test" 2 =
      Except.ok (claimVolText pyFmt "Test"
        (fun i => if i = 1 then "3.14*h*h" else "2*h")
        (fun i => if i = 1 then (10 : ℚ) else 5) 2) :=
  C1_volume_function_text pyFmt "Test" rC1ctr
    (fun i => if i = 1 then "3.14*h*h" else "2*h")
    (fun i => if i = 1 then (10 : ℚ) else 5) 2 (by omega) (by decide)

/-- C9: each public by-explicit-name entry point returns exactly the
descriptor produced by the corresponding internal for-writing form with only
the `name` field replaced by the caller-supplied value; the description (and
for plates the volume text) is discarded by the result type, and every other
field — including the filename-derived `model` — is unchanged. -/
theorem C9_public_name_override :
    (∀ fmt fs filepath name ctr p dsc vol,
      create_plate_for_writing fmt fs filepath ctr = Except.ok (p, dsc, vol) →
      create_plate fmt fs filepath name ctr = Except.ok { p with name := name }) ∧
    (∀ fs filepath name p dsc,
      create_tip_rack_for_writing fs filepath = Except.ok (p, dsc) →
      create_tip_rack fs filepath name = Except.ok { p with name := name }) ∧
    (∀ fs filepath name p dsc,
      create_plate_carrier_for_writing fs filepath = Except.ok (p, dsc) →
      create_plate_carrier fs filepath name = Except.ok { p with name := name }) ∧
    (∀ fs filepath name p dsc,
      create_tip_carrier_for_writing fs filepath = Except.ok (p, dsc) →
      create_tip_carrier fs filepath name = Except.ok { p with name := name }) ∧
    (∀ fs filepath name p dsc,
      create_flex_carrier_for_writing fs filepath = Except.ok (p, dsc) →
      create_flex_carrier fs filepath name = Except.ok { p with name := name }) := by
  refine ⟨?_, ?_, ?_, ?_, ?_⟩
  · intro fmt fs filepath name ctr p dsc vol h
    simp [create_plate, h, Except.map]
  · intro fs filepath name p dsc h
    simp [create_tip_rack, h, Except.map]
  · intro fs filepath name p dsc h
    simp [create_plate_carrier, h, Except.map]
  · intro fs filepath name p dsc h
    simp [create_tip_carrier, h, Except.map]
  · intro fs filepath name p dsc h
    simp [create_flex_carrier, h, Except.map]


/-- Witness for C9: one successful parse of every resource kind against
`fsAll`, each renamed by the public entry point. -/
theorem C9_public_name_override_witness :
    create_plate pyFmt fsAll "TestPlate.rck" "NewPlate" none =
      Except.ok ⟨"NewPlate", 127, 86, 14, 1, 1,
        ⟨1, 1, 6, 7, 0, 9, 9, 8, 8, 10, WellBottomType.FLAT, CrossSectionType.CIRCLE⟩,
        10, "TestPlate"⟩ ∧
    create_tip_rack fsAll "StandardTips.tml" "NewRack" =
      Except.ok ⟨"NewRack", 120, 80, 60,
        ⟨12, 8, 11 / 2, 11 / 2, 2, 9, 9, 9, 9, 60, TipCreator.standard_volume_tip_no_filter⟩,
        "StandardTips"⟩ ∧
    create_plate_carrier fsAll "PLT_CAR_TEST.tml" "NewPC" =
      Except.ok ⟨"NewPC", 135, 497, 130, [⟨10, 20, 5⟩, ⟨10, 115, 5⟩], 97, 130, "PLT_CAR_TEST"⟩ ∧
    create_tip_carrier fsAll "TIP_CAR_TEST.tml" "NewTC" =
      Except.ok ⟨"NewTC", 135, 497, 130, [⟨10, 20, 5⟩, ⟨10, 115, 5⟩], 97, 130, "TIP_CAR_TEST"⟩ ∧
    create_flex_carrier fsAll "MFX_CAR_TEST2.tml" "NewMFX" =
      Except.ok ⟨"NewMFX", 100, 200, 50, [⟨0, 1, 0⟩], 12, 12, "MFX_CAR_TEST2"⟩ := by
  refine ⟨?_, ?_, ?_, ?_, ?_⟩
  · exact C9_public_name_override.1 pyFmt fsAll "TestPlate.rck" "NewPlate" none
      ⟨"TestPlate", 127, 86, 14, 1, 1,
        ⟨1, 1, 6, 7, 0, 9, 9, 8, 8, 10, WellBottomType.FLAT, CrossSectionType.CIRCLE⟩,
        10, "TestPlate"⟩
      "TestPlate"
      "volume = min(h, 10/1)\nif h > 10/1:\n  raise ValueError(f\"Height {h} is too large for TestPlate\")\nreturn volume"
      (by with_unfolding_all rfl)
  · exact C9_public_name_override.2.1 fsAll "StandardTips.tml" "NewRack"
      ⟨"StandardTips", 120, 80, 60,
        ⟨12, 8, 11 / 2, 11 / 2, 2, 9, 9, 9, 9, 60, TipCreator.standard_volume_tip_no_filter⟩,
        "StandardTips"⟩
      "Test tip rack" (by with_unfolding_all rfl)
  · exact C9_public_name_override.2.2.1 fsAll "PLT_CAR_TEST.tml" "NewPC"
      ⟨"PLT_CAR_TEST", 135, 497, 130, [⟨10, 20, 5⟩, ⟨10, 115, 5⟩], 97, 130, "PLT_CAR_TEST"⟩
      "Test carrier" (by with_unfolding_all rfl)
  · exact C9_public_name_override.2.2.2.1 fsAll "TIP_CAR_TEST.tml" "NewTC"
      ⟨"TIP_CAR_TEST", 135, 497, 130, [⟨10, 20, 5⟩, ⟨10, 115, 5⟩], 97, 130, "TIP_CAR_TEST"⟩
      "Test carrier" (by with_unfolding_all rfl)
  · exact C9_public_name_override.2.2.2.2 fsAll "MFX_CAR_TEST2.tml" "NewMFX"
      ⟨"MFX_CAR_TEST2", 100, 200, 50, [⟨0, 1, 0⟩], 12, 12, "MFX_CAR_TEST2"⟩
      "MFX test carrier" (by with_unfolding_all rfl)

theorem classify_noncarrier (fs : String → Option RawRecord)
    (filepath : String)
    (h1 : strStartsWith (basename filepath) "PLT_CAR_" = false)
    (h2 : strStartsWith (basename filepath) "TIP_CAR_" = false)
    (h3 : strStartsWith (basename filepath) "MFX_CAR_" = false)
    (h4 : strStartsWith (basename filepath) "SMP_CAR_" = false) :
    get_resource_type fs filepath =
      claimClassify fs (normalizeOrientation filepath) (basename filepath) := by
  simp only [get_resource_type, claimClassify, normalizeOrientation, h1, h2, h3, h4,
    Bool.false_eq_true, if_false]
  cases hfs : fs (if strEndsWith (basename filepath) "_P.rck" = true then
      pyReplace (if strEndsWith filepath "_L.rck" = true then
        pyReplace filepath "_L.rck" ".rck" else filepath) "_P.rck" ".rck"
    else if strEndsWith filepath "_L.rck" = true then
      pyReplace filepath "_L.rck" ".rck" else filepath) with
  | none => rfl
  | some r =>
    dsimp only
    unfold cntrFileCheck
    cases hci : find_int "Category.0.Id" r with
    | some id =>
      dsimp only
      by_cases ha : 170 ≤ id ∧ id < 180
      · rw [if_pos ha, if_pos (show 170 ≤ id ∧ id ≤ 179 by omega)]
      · rw [if_neg ha, if_neg (show ¬(170 ≤ id ∧ id ≤ 179) by omega)]
        by_cases hb : 1000 ≤ id ∧ id < 1100
        · rw [if_pos hb, if_pos (show 1000 ≤ id ∧ id ≤ 1099 by omega)]
        · rw [if_neg hb, if_neg (show ¬(1000 ≤ id ∧ id ≤ 1099) by omega)]
          cases hcf : find_string "Cntr.1.file" r <;> simp [hcf]
    | none =>
      dsimp only
      cases hcf : find_string "Cntr.1.file" r <;> simp [hcf]

/-- C3: for every file path whose filename carries no carrier prefix,
`get_resource_type` behaves exactly as the claim describes on the
orientation-normalized path: a missing canonical file classifies as
TipRack; otherwise `Category.0.Id` in 170–179 gives TipRack, in 1000–1099
gives Plate, else a present `Cntr.1.file` gives Plate, and otherwise the
call fails with an unknown-resource-type error naming the file. -/
theorem C3_noncarrier_content_classification (fs : String → Option RawRecord)
    (filepath : String)
    (h1 : strStartsWith (basename filepath) "PLT_CAR_" = false)
    (h2 : strStartsWith (basename filepath) "TIP_CAR_" = false)
    (h3 : strStartsWith (basename filepath) "MFX_CAR_" = false)
    (h4 : strStartsWith (basename filepath) "SMP_CAR_" = false) :
    get_resource_type fs filepath =
      claimClassify fs (normalizeOrientation filepath) (basename filepath) :=
  classify_noncarrier fs filepath h1 h2 h3 h4

/-- Witness for C3: a non-carrier file name on an empty filesystem. -/
theorem C3_noncarrier_content_classification_witness :
    get_resource_type (fun _ => none) "Foo.rck" =
      claimClassify (fun _ => none) (normalizeOrientation "Foo.rck") (basename "Foo.rck") :=
  C3_noncarrier_content_classification (fun _ => none) "Foo.rck"
    (by decide) (by decide) (by decide) (by decide)

theorem startsWith_head {s p : String} (hp : strStartsWith s p = true) :
    ∀ c cs, p.data = c :: cs → s.data.head? = some c := by
  intro c cs hc
  unfold strStartsWith at hp
  rw [List.isPrefixOf_iff_prefix] at hp
  obtain ⟨t, ht⟩ := hp
  rw [← ht, hc]
  rfl

theorem startsWith_excl {s p q : String} (hp : strStartsWith s p = true)
    (hq : strStartsWith s q = true) {cp cq : Char} {tp tq : List Char}
    (hcp : p.data = cp :: tp) (hcq : q.data = cq :: tq) (hne : cp ≠ cq) : False := by
  have e1 := startsWith_head hp cp tp hcp
  have e2 := startsWith_head hq cq tq hcq
  rw [e1] at e2
  injection e2 with e3
  exact hne e3

/-- C5: a basename starting with `PLT_CAR_`, `TIP_CAR_` or `MFX_CAR_`
classifies as the corresponding carrier kind for every filesystem (so
without opening any file), and a basename starting with `SMP_CAR_` fails
immediately with the unsupported-kind error. -/
theorem C5_carrier_prefix_dispatch (fs : String → Option RawRecord) (filepath : String) :
    (strStartsWith (basename filepath) "PLT_CAR_" = true →
      get_resource_type fs filepath = Except.ok ResourceType.PlateCarrier) ∧
    (strStartsWith (basename filepath) "TIP_CAR_" = true →
      get_resource_type fs filepath = Except.ok ResourceType.TipCarrier) ∧
    (strStartsWith (basename filepath) "MFX_CAR_" = true →
      get_resource_type fs filepath = Except.ok ResourceType.MFXCarrier) ∧
    (strStartsWith (basename filepath) "SMP_CAR_" = true →
      get_resource_type fs filepath = Except.error "SMP_CAR_ not supported yet") := by
  refine ⟨?_, ?_, ?_, ?_⟩
  · intro h
    simp [get_resource_type, h]
  · intro h
    have hP : strStartsWith (basename filepath) "PLT_CAR_" = false := by
      rw [Bool.eq_false_iff]
      intro hP
      exact startsWith_excl hP h rfl rfl (by decide)
    simp [get_resource_type, h, hP]
  · intro h
    have hP : strStartsWith (basename filepath) "PLT_CAR_" = false := by
      rw [Bool.eq_false_iff]
      intro hP
      exact startsWith_excl hP h rfl rfl (by decide)
    have hT : strStartsWith (basename filepath) "TIP_CAR_" = false := by
      rw [Bool.eq_false_iff]
      intro hT
      exact startsWith_excl hT h rfl rfl (by decide)
    simp [get_resource_type, h, hP, hT]
  · intro h
    have hP : strStartsWith (basename filepath) "PLT_CAR_" = false := by
      rw [Bool.eq_false_iff]
      intro hP
      exact startsWith_excl hP h rfl rfl (by decide)
    have hT : strStartsWith (basename filepath) "TIP_CAR_" = false := by
      rw [Bool.eq_false_iff]
      intro hT
      exact startsWith_excl hT h rfl rfl (by decide)
    have hM : strStartsWith (basename filepath) "MFX_CAR_" = false := by
      rw [Bool.eq_false_iff]
      intro hM
      exact startsWith_excl hM h rfl rfl (by decide)
    simp [get_resource_type, h, hP, hT, hM]

/-- Witness for C5, including the spec §8 scenario `PLT_CAR_L5AC_A00.rck`. -/
theorem C5_carrier_prefix_dispatch_witness :
    get_resource_type (fun _ => none) "PLT_CAR_L5AC_A00.rck" =
      Except.ok ResourceType.PlateCarrier ∧
    get_resource_type (fun _ => none) "TIP_CAR_480_A00.tml" =
      Except.ok ResourceType.TipCarrier ∧
    get_resource_type (fun _ => none) "MFX_CAR_L5_base.tml" =
      Except.ok ResourceType.MFXCarrier ∧
    get_resource_type (fun _ => none) "SMP_CAR_24.tml" =
      Except.error "SMP_CAR_ not supported yet" :=
  ⟨(C5_carrier_prefix_dispatch (fun _ => none) "PLT_CAR_L5AC_A00.rck").1 (by decide),
   (C5_carrier_prefix_dispatch (fun _ => none) "TIP_CAR_480_A00.tml").2.1 (by decide),
   (C5_carrier_prefix_dispatch (fun _ => none) "MFX_CAR_L5_base.tml").2.2.1 (by decide),
   (C5_carrier_prefix_dispatch (fun _ => none) "SMP_CAR_24.tml").2.2.2 (by decide)⟩

/-- Counterexample for C6: with only `x_L.rck` on disk (a plate record),
the suffixed name `x_L_P.rck` classifies as Plate (its normalization is
`x_L.rck`, which exists) while its un-suffixed canonical name `x_L.rck`
classifies as TipRack (its normalization `x.rck` does not exist), so the
round-trip property fails as stated. -/
theorem C6_counterexample :
    get_resource_type fsC6 "x_L_P.rck" = Except.ok ResourceType.Plate ∧
    get_resource_type fsC6 "x_L.rck" = Except.ok ResourceType.TipRack ∧
    get_resource_type fsC6 "x_L_P.rck" ≠ get_resource_type fsC6 "x_L.rck" := by
  have e1 : get_resource_type fsC6 "x_L_P.rck" = Except.ok ResourceType.Plate := by
    with_unfolding_all rfl
  have e2 : get_resource_type fsC6 "x_L.rck" = Except.ok ResourceType.TipRack := by
    with_unfolding_all rfl
  refine ⟨e1, e2, fun hcontra => ?_⟩
  rw [e1, e2] at hcontra
  simp at hcontra

/-- C2 (evaluation of the code at the failing input): the MFX visibility
filter indexes `Site.{i}.Visible` by the 0-based position in the *sorted*
list, not by the site's original 1-based source index.  On `recC2` the code
keeps the site whose own visibility flag is 0 and drops the site whose own
flag is 1; the claim-side filter (by original source index) keeps exactly
the other site. -/
theorem C2_flex_visibility_filter_bug :
    carrierSitesOf (create_flex_carrier_for_writing fsC2 "MFX_CAR_TEST2.tml") =
      some [⟨0, 1, 0⟩] ∧
    find_int "Site.1.Visible" recC2 = some 0 ∧
    find_int "Site.2.Visible" recC2 = some 1 ∧
    claimFlexSites recC2 = some [⟨5, 2, 0⟩] ∧
    ¬ (([(⟨0, 1, 0⟩ : Coord)] : List Coord) = [⟨5, 2, 0⟩]) := by
  refine ⟨by with_unfolding_all rfl, rfl, rfl, by with_unfolding_all rfl, by decide⟩

theorem exc_bind_ok {ε : Type u} {α β : Type v} (x : α) (f : α → Except ε β) :
    ((Except.ok x : Except ε α) >>= f) = f x := rfl

theorem exc_bind_error {ε : Type u} {α β : Type v} (e : ε) (f : α → Except ε β) :
    ((Except.error e : Except ε α) >>= f) = Except.error e := rfl

theorem create_plate_for_writing_eq (fmt : ℚ → String) (fs : String → Option RawRecord)
    (filepath : String) (ctr_filepath : Option String) (r r2 : RawRecord)
    (sx sy sz wdx wdy bx byv wsx wsy wsz : ℚ) (cols rows nseg bcode ccode : Int)
    (acc : String) (tot : ℚ)
    (hr : fs filepath = some r)
    (hr2 : fs (ctr_filepath.getD (rck2ctr filepath)) = some r2)
    (h1 : find_float "Dim.Dx" r = some sx)
    (h2 : find_float "Dim.Dy" r = some sy)
    (h3 : find_float "Dim.Dz" r = some sz)
    (h4 : find_int "Columns" r = some cols)
    (h5 : find_int "Rows" r = some rows)
    (h6 : find_float "Dx" r = some wdx)
    (h7 : find_float "Dy" r = some wdy)
    (h8 : find_float "BndryX" r = some bx)
    (h9 : find_float "BndryY" r = some byv)
    (h10 : find_int "Segments" r2 = some nseg)
    (h11 : volEqnLoopR fmt r2 nseg.toNat nseg.toNat "" 0 = Except.ok (acc, tot))
    (h12 : find_float "Dim.Dx" r2 = some wsx)
    (h13 : find_float "Dim.Dy" r2 = some wsy)
    (h14 : find_int (toString nseg ++ ".Shape") r2 = some bcode)
    (h15 : find_int "1.Shape" r2 = some ccode)
    (h16 : find_float "Depth" r2 = some wsz) :
    create_plate_for_writing fmt fs filepath ctr_filepath =
      Except.ok
        (⟨stem (basename filepath), sx, sy, sz, cols, rows,
          ⟨cols, rows,
           round4 (bx - wdx / 2) + (wdx - wsx) / 2,
           round4 (byv - wdy / 2) +
             ((if stem (basename filepath) = "Cos_96_ProtCryst" ∧ wdy = 4.5 then 9.0
               else wdy) - wsy) / 2,
           (find_float "BaseMM" r2).getD 0,
           wdx,
           (if stem (basename filepath) = "Cos_96_ProtCryst" ∧ wdy = 4.5 then 9.0 else wdy),
           wsx, wsy, wsz, wellBottomTypeOf bcode, crossSectionTypeOf ccode⟩,
          10, stem (basename filepath)⟩,
         stem (basename filepath),
         acc ++ "if h > " ++ fmt tot ++ ":\n" ++
           "  raise ValueError(f\"Height {h} is too large for " ++ stem (basename filepath) ++
           "\")\n" ++ "return volume") := by
  simp only [create_plate_for_writing, openFile, fFloat, fInt, vol_eqn_func_of,
    hr, hr2, h1, h2, h3, h4, h5, h6, h7, h8, h9, h10, h11, h12, h13, h14, h15, h16,
    exc_bind_ok]

/-- Counterexample for C4: on `TestPlate.rck` (boundary 10, cell pitch
`Dx` = 9 read from the `.rck`, well footprint `Dim.Dx` = 8 read from the
`.ctr`) the code passes corner x `round4(10 − 9/2) + (9 − 8)/2 = 6`, whereas
the claim's formula `round4(boundary − item_size/2) + (pitch − item_size)/2`
gives `6 + 1/2 = 13/2`. -/
theorem C4_counterexample :
    plateDxOf (create_plate_for_writing pyFmt fsAll "TestPlate.rck" none) = some 6 ∧
    claimCornerFormula 10 9 8 = 13 / 2 ∧
    ¬ ((6 : ℚ) = 13 / 2) := by
  refine ⟨by with_unfolding_all rfl, by with_unfolding_all rfl, by norm_num⟩

/-- C4 (amended): for every successfully parsed plate file, each axis's
corner coordinate passed to the well-grid builder equals the boundary
coordinate minus half the *cell pitch* (`Dx`/`Dy` from the `.rck` file),
rounded to 4 decimal places, plus the border correction
`(cell_pitch − item_size)/2`, where for the y axis the cell pitch used in
the border correction (but not inside the rounded term) carries the named
`Cos_96_ProtCryst` correction. -/
theorem C4_amended_corner_formula (fmt : ℚ → String) (fs : String → Option RawRecord)
    (filepath : String) (ctr_filepath : Option String) (r r2 : RawRecord)
    (sx sy sz wdx wdy bx byv wsx wsy wsz : ℚ) (cols rows nseg bcode ccode : Int)
    (acc : String) (tot : ℚ)
    (hr : fs filepath = some r)
    (hr2 : fs (ctr_filepath.getD (rck2ctr filepath)) = some r2)
    (h1 : find_float "Dim.Dx" r = some sx)
    (h2 : find_float "Dim.Dy" r = some sy)
    (h3 : find_float "Dim.Dz" r = some sz)
    (h4 : find_int "Columns" r = some cols)
    (h5 : find_int "Rows" r = some rows)
    (h6 : find_float "Dx" r = some wdx)
    (h7 : find_float "Dy" r = some wdy)
    (h8 : find_float "BndryX" r = some bx)
    (h9 : find_float "BndryY" r = some byv)
    (h10 : find_int "Segments" r2 = some nseg)
    (h11 : volEqnLoopR fmt r2 nseg.toNat nseg.toNat "" 0 = Except.ok (acc, tot))
    (h12 : find_float "Dim.Dx" r2 = some wsx)
    (h13 : find_float "Dim.Dy" r2 = some wsy)
    (h14 : find_int (toString nseg ++ ".Shape") r2 = some bcode)
    (h15 : find_int "1.Shape" r2 = some ccode)
    (h16 : find_float "Depth" r2 = some wsz) :
    plateDxOf (create_plate_for_writing fmt fs filepath ctr_filepath) =
      some (round4 (bx - wdx / 2) + (wdx - wsx) / 2) ∧
    plateDyOf (create_plate_for_writing fmt fs filepath ctr_filepath) =
      some (round4 (byv - wdy / 2) +
        ((if stem (basename filepath) = "Cos_96_ProtCryst" ∧ wdy = 4.5 then 9.0
          else wdy) - wsy) / 2) := by
  rw [create_plate_for_writing_eq fmt fs filepath ctr_filepath r r2 sx sy sz wdx wdy bx byv
    wsx wsy wsz cols rows nseg bcode ccode acc tot hr hr2 h1 h2 h3 h4 h5 h6 h7 h8 h9 h10
    h11 h12 h13 h14 h15 h16]
  exact ⟨rfl, rfl⟩

/-- Witness for C4's amended claim at `TestPlate.rck`. -/
theorem C4_amended_corner_formula_witness :
    plateDxOf (create_plate_for_writing pyFmt fsAll "TestPlate.rck" none) =
      some (round4 (10 - 9 / 2) + (9 - 8) / 2) ∧
    plateDyOf (create_plate_for_writing pyFmt fsAll "TestPlate.rck" none) =
      some (round4 (11 - 9 / 2) +
        ((if stem (basename "TestPlate.rck") = "Cos_96_ProtCryst" ∧ (9 : ℚ) = 4.5 then 9.0
          else 9) - 8) / 2) :=
  C4_amended_corner_formula pyFmt fsAll "TestPlate.rck" none rPlate rCtr
    127 86 14 9 9 10 11 8 8 10 1 1 1 0 0 "volume = min(h, 10/1)\n" 10
    rfl (by with_unfolding_all rfl) rfl rfl rfl rfl rfl rfl rfl rfl rfl rfl
    (by with_unfolding_all rfl) rfl rfl rfl rfl rfl

/-- C8: the `Cos_96_ProtCryst` row-pitch correction is a named special case:
for every successfully parsed plate file, the row pitch passed to the
well-grid builder is 9.0 exactly when the filename stem is
`Cos_96_ProtCryst` and the `Dy` field reads as 4.5, and otherwise is the
`Dy` value exactly as read. -/
theorem C8_protcryst_pitch_correction (fmt : ℚ → String) (fs : String → Option RawRecord)
    (filepath : String) (ctr_filepath : Option String) (r r2 : RawRecord)
    (sx sy sz wdx wdy bx byv wsx wsy wsz : ℚ) (cols rows nseg bcode ccode : Int)
    (acc : String) (tot : ℚ)
    (hr : fs filepath = some r)
    (hr2 : fs (ctr_filepath.getD (rck2ctr filepath)) = some r2)
    (h1 : find_float "Dim.Dx" r = some sx)
    (h2 : find_float "Dim.Dy" r = some sy)
    (h3 : find_float "Dim.Dz" r = some sz)
    (h4 : find_int "Columns" r = some cols)
    (h5 : find_int "Rows" r = some rows)
    (h6 : find_float "Dx" r = some wdx)
    (h7 : find_float "Dy" r = some wdy)
    (h8 : find_float "BndryX" r = some bx)
    (h9 : find_float "BndryY" r = some byv)
    (h10 : find_int "Segments" r2 = some nseg)
    (h11 : volEqnLoopR fmt r2 nseg.toNat nseg.toNat "" 0 = Except.ok (acc, tot))
    (h12 : find_float "Dim.Dx" r2 = some wsx)
    (h13 : find_float "Dim.Dy" r2 = some wsy)
    (h14 : find_int (toString nseg ++ ".Shape") r2 = some bcode)
    (h15 : find_int "1.Shape" r2 = some ccode)
    (h16 : find_float "Depth" r2 = some wsz) :
    plateItemDyOf (create_plate_for_writing fmt fs filepath ctr_filepath) =
      some (if stem (basename filepath) = "Cos_96_ProtCryst" ∧ wdy = 4.5 then 9.0
        else wdy) := by
  rw [create_plate_for_writing_eq fmt fs filepath ctr_filepath r r2 sx sy sz wdx wdy bx byv
    wsx wsy wsz cols rows nseg bcode ccode acc tot hr hr2 h1 h2 h3 h4 h5 h6 h7 h8 h9 h10
    h11 h12 h13 h14 h15 h16]
  rfl

/-- Witness for C8: the correction fires on `Cos_96_ProtCryst.rck` (whose
`Dy` reads 9/2 = 4.5) and leaves `TestPlate.rck` (whose `Dy` reads 9)
untouched. -/
theorem C8_protcryst_pitch_correction_witness :
    (plateItemDyOf (create_plate_for_writing pyFmt fsAll "Cos_96_ProtCryst.rck" none) =
      some (if stem (basename "Cos_96_ProtCryst.rck") = "Cos_96_ProtCryst" ∧
          ((9 : ℚ) / 2) = 4.5 then 9.0 else 9 / 2)) ∧
    (plateItemDyOf (create_plate_for_writing pyFmt fsAll "TestPlate.rck" none) =
      some (if stem (basename "TestPlate.rck") = "Cos_96_ProtCryst" ∧ (9 : ℚ) = 4.5 then 9.0
        else 9)) :=
  ⟨C8_protcryst_pitch_correction pyFmt fsAll "Cos_96_ProtCryst.rck" none rCos rCtr
      127 86 14 9 (9 / 2) 10 11 8 8 10 12 8 1 0 0 "volume = min(h, 10/1)\n" 10
      rfl (by with_unfolding_all rfl) rfl rfl rfl rfl rfl rfl rfl rfl rfl rfl
      (by with_unfolding_all rfl) rfl rfl rfl rfl rfl,
   C8_protcryst_pitch_correction pyFmt fsAll "TestPlate.rck" none rPlate rCtr
      127 86 14 9 9 10 11 8 8 10 1 1 1 0 0 "volume = min(h, 10/1)\n" 10
      rfl (by with_unfolding_all rfl) rfl rfl rfl rfl rfl rfl rfl rfl rfl rfl
      (by with_unfolding_all rfl) rfl rfl rfl rfl rfl⟩

theorem create_tip_rack_for_writing_eq (fs : String → Option RawRecord)
    (filepath : String) (c : RawRecord) (gx gy gz tdx tdy bx byv dzv : ℚ)
    (cols rows : Int) (t dsc : String) (cr : TipCreator) (ch : Char) (rest : List Char)
    (hc : fs filepath = some c)
    (h1 : find_float "Dim.Dx" c = some gx)
    (h2 : find_float "Dim.Dy" c = some gy)
    (h3 : find_float "Dim.Dz" c = some gz)
    (hsel : (match find_string "PropertyValue.6" c with
      | some t' => Except.ok t'
      | none => fStr "PropertyValue.4" c) = Except.ok t)
    (hT : tip_table t = some cr)
    (h4 : find_float "Dx" c = some tdx)
    (h5 : find_float "Dy" c = some tdy)
    (h6 : find_float "BndryX" c = some bx)
    (h7 : find_float "BndryY" c = some byv)
    (h8 : find_float "Cntr.1.base" c = some dzv)
    (h9 : find_int "Columns" c = some cols)
    (h10 : find_int "Rows" c = some rows)
    (h11 : (stem (basename filepath)).data = ch :: rest)
    (h12 : find_string "Description" c = some dsc) :
    create_tip_rack_for_writing fs filepath =
      Except.ok
        (⟨if ch = '4' then "Four" ++ String.mk rest
          else if ch = '5' then "Five" ++ String.mk rest
          else String.mk (ch :: rest),
          gx, gy, gz,
          ⟨cols, rows, round4 (bx - tdx / 2), round4 (byv - tdy / 2), dzv,
           tdx, tdy, tdx, tdy, gz, cr⟩,
          if ch = '4' then "Four" ++ String.mk rest
          else if ch = '5' then "Five" ++ String.mk rest
          else String.mk (ch :: rest)⟩, dsc) := by
  cases hp6 : find_string "PropertyValue.6" c with
  | some t6 =>
    rw [hp6] at hsel
    have ht6 : t6 = t := by
      simpa using hsel
    subst ht6
    simp only [create_tip_rack_for_writing, openFile, fFloat, fInt, fStr,
      hc, h1, h2, h3, hp6, hT, h4, h5, h6, h7, h8, h9, h10, h11, h12, exc_bind_ok]
  | none =>
    rw [hp6] at hsel
    have h4' : find_string "PropertyValue.4" c = some t := by
      unfold fStr at hsel
      cases hp4 : find_string "PropertyValue.4" c with
      | none => rw [hp4] at hsel; exact absurd hsel (by simp)
      | some v =>
        rw [hp4] at hsel
        have hv : v = t := by simpa using hsel
        exact congrArg some hv
    simp only [create_tip_rack_for_writing, openFile, fFloat, fInt, fStr,
      hc, h1, h2, h3, hp6, h4', hT, h4, h5, h6, h7, h8, h9, h10, h11, h12, exc_bind_ok]

/-- C7: `create_tip_rack_for_writing` reads the tip-type string from
`PropertyValue.6` and falls back to `PropertyValue.4` only when
`PropertyValue.6` is not found; an unrecognized tip-type string (or a
missing fallback) makes the call fail rather than return a descriptor. -/
theorem C7_tip_type_fallback_and_failure (fs : String → Option RawRecord)
    (filepath : String) (c : RawRecord) (gx gy gz : ℚ)
    (hc : fs filepath = some c)
    (h1 : find_float "Dim.Dx" c = some gx)
    (h2 : find_float "Dim.Dy" c = some gy)
    (h3 : find_float "Dim.Dz" c = some gz) :
    (∀ t cr, find_string "PropertyValue.6" c = some t → tip_table t = some cr →
      ∀ d dsc, create_tip_rack_for_writing fs filepath = Except.ok (d, dsc) →
        d.items.make_tip = cr) ∧
    (∀ t cr, find_string "PropertyValue.6" c = none →
      find_string "PropertyValue.4" c = some t → tip_table t = some cr →
      ∀ d dsc, create_tip_rack_for_writing fs filepath = Except.ok (d, dsc) →
        d.items.make_tip = cr) ∧
    (∀ t, (find_string "PropertyValue.6" c = some t ∨
        (find_string "PropertyValue.6" c = none ∧
         find_string "PropertyValue.4" c = some t)) →
      tip_table t = none →
      create_tip_rack_for_writing fs filepath = Except.error ("KeyError: " ++ t)) ∧
    (find_string "PropertyValue.6" c = none → find_string "PropertyValue.4" c = none →
      create_tip_rack_for_writing fs filepath = Except.error "ValueError: PropertyValue.4") := by
  refine ⟨?_, ?_, ?_, ?_⟩
  · intro t cr h6 hT d dsc hok
    simp only [create_tip_rack_for_writing, openFile, fFloat, fInt, fStr,
      hc, h1, h2, h3, h6, hT, exc_bind_ok] at hok
    cases hDx : find_float "Dx" c with
    | none => simp [hDx, exc_bind_error] at hok
    | some tdx =>
    cases hDy : find_float "Dy" c with
    | none => simp [hDx, hDy, exc_bind_error, exc_bind_ok] at hok
    | some tdy =>
    cases hBx : find_float "BndryX" c with
    | none => simp [hDx, hDy, hBx, exc_bind_error, exc_bind_ok] at hok
    | some bx =>
    cases hBy : find_float "BndryY" c with
    | none => simp [hDx, hDy, hBx, hBy, exc_bind_error, exc_bind_ok] at hok
    | some byv =>
    cases hBase : find_float "Cntr.1.base" c with
    | none => simp [hDx, hDy, hBx, hBy, hBase, exc_bind_error, exc_bind_ok] at hok
    | some dzv =>
    cases hCols : find_int "Columns" c with
    | none => simp [hDx, hDy, hBx, hBy, hBase, hCols, exc_bind_error, exc_bind_ok] at hok
    | some cols =>
    cases hRows : find_int "Rows" c with
    | none => simp [hDx, hDy, hBx, hBy, hBase, hCols, hRows, exc_bind_error, exc_bind_ok] at hok
    | some rows =>
    cases hStem : (stem (basename filepath)).data with
    | nil => simp [hDx, hDy, hBx, hBy, hBase, hCols, hRows, hStem, exc_bind_error, exc_bind_ok] at hok
    | cons ch rest =>
    cases hDesc : find_string "Description" c with
    | none => simp [hDx, hDy, hBx, hBy, hBase, hCols, hRows, hStem, hDesc, exc_bind_error, exc_bind_ok] at hok
    | some dsc' =>
      simp only [hDx, hDy, hBx, hBy, hBase, hCols, hRows, hStem, hDesc,
        exc_bind_ok, Except.ok.injEq, Prod.mk.injEq] at hok
      obtain ⟨hd, _⟩ := hok
      rw [← hd]
  · intro t cr h6 h4f hT d dsc hok
    simp only [create_tip_rack_for_writing, openFile, fFloat, fInt, fStr,
      hc, h1, h2, h3, h6, h4f, hT, exc_bind_ok] at hok
    cases hDx : find_float "Dx" c with
    | none => simp [hDx, exc_bind_error] at hok
    | some tdx =>
    cases hDy : find_float "Dy" c with
    | none => simp [hDx, hDy, exc_bind_error, exc_bind_ok] at hok
    | some tdy =>
    cases hBx : find_float "BndryX" c with
    | none => simp [hDx, hDy, hBx, exc_bind_error, exc_bind_ok] at hok
    | some bx =>
    cases hBy : find_float "BndryY" c with
    | none => simp [hDx, hDy, hBx, hBy, exc_bind_error, exc_bind_ok] at hok
    | some byv =>
    cases hBase : find_float "Cntr.1.base" c with
    | none => simp [hDx, hDy, hBx, hBy, hBase, exc_bind_error, exc_bind_ok] at hok
    | some dzv =>
    cases hCols : find_int "Columns" c with
    | none => simp [hDx, hDy, hBx, hBy, hBase, hCols, exc_bind_error, exc_bind_ok] at hok
    | some cols =>
    cases hRows : find_int "Rows" c with
    | none => simp [hDx, hDy, hBx, hBy, hBase, hCols, hRows, exc_bind_error, exc_bind_ok] at hok
    | some rows =>
    cases hStem : (stem (basename filepath)).data with
    | nil => simp [hDx, hDy, hBx, hBy, hBase, hCols, hRows, hStem, exc_bind_error, exc_bind_ok] at hok
    | cons ch rest =>
    cases hDesc : find_string "Description" c with
    | none => simp [hDx, hDy, hBx, hBy, hBase, hCols, hRows, hStem, hDesc, exc_bind_error, exc_bind_ok] at hok
    | some dsc' =>
      simp only [hDx, hDy, hBx, hBy, hBase, hCols, hRows, hStem, hDesc,
        exc_bind_ok, Except.ok.injEq, Prod.mk.injEq] at hok
      obtain ⟨hd, _⟩ := hok
      rw [← hd]
  · intro t hsel hT
    rcases hsel with h6 | ⟨h6, h4f⟩
    · simp only [create_tip_rack_for_writing, openFile, fFloat, fInt, fStr,
        hc, h1, h2, h3, h6, hT, exc_bind_ok, exc_bind_error]
    · simp only [create_tip_rack_for_writing, openFile, fFloat, fInt, fStr,
        hc, h1, h2, h3, h6, h4f, hT, exc_bind_ok, exc_bind_error]
  · intro h6 h4f
    simp only [create_tip_rack_for_writing, openFile, fFloat, fInt, fStr,
      hc, h1, h2, h3, h6, h4f, exc_bind_ok, exc_bind_error]
    rfl

/-- Witness for C7: `rTip` selects its creator from `PropertyValue.6`
(`MlStar300ulStandardVolumeTip`), and `rTipBad` (tip type `NotATip`) makes
the parse fail with a key error. -/
theorem C7_tip_type_fallback_and_failure_witness :
    tipMakeTipOf (create_tip_rack_for_writing fsAll "StandardTips.tml") =
      some TipCreator.standard_volume_tip_no_filter ∧
    create_tip_rack_for_writing fsAll "BadTips.tml" =
      Except.error ("KeyError: " ++ "NotATip") := by
  constructor
  · have h := (C7_tip_type_fallback_and_failure fsAll "StandardTips.tml" rTip 120 80 60
      rfl rfl rfl rfl).1 "MlStar300ulStandardVolumeTip"
      TipCreator.standard_volume_tip_no_filter rfl rfl
    have hok : create_tip_rack_for_writing fsAll "StandardTips.tml" =
        Except.ok (⟨"StandardTips", 120, 80, 60,
          ⟨12, 8, 11 / 2, 11 / 2, 2, 9, 9, 9, 9, 60,
            TipCreator.standard_volume_tip_no_filter⟩,
          "StandardTips"⟩, "Test tip rack") := by
      with_unfolding_all rfl
    rw [tipMakeTipOf, hok]
    rfl
  · exact (C7_tip_type_fallback_and_failure fsAll "BadTips.tml" rTipBad 120 80 60
      rfl rfl rfl rfl).2.2.1 "NotATip" (Or.inl rfl) rfl

theorem replaceAux_only_final (pat rep : List Char) (hne : pat ≠ []) :
    ∀ s : List Char, onlyFinalMatch pat (s ++ pat) →
      replaceAux pat rep (s ++ pat) = s ++ rep := by
  intro s
  induction s with
  | nil =>
    intro _
    obtain ⟨c, pt, rfl⟩ : ∃ c pt, pat = c :: pt := by
      cases pat with
      | nil => exact absurd rfl hne
      | cons c pt => exact ⟨c, pt, rfl⟩
    have hpref : (c :: pt).isPrefixOf (c :: pt) = true := by
      rw [List.isPrefixOf_iff_prefix]
    simp only [List.nil_append, replaceAux, hpref, if_true, List.length_cons,
      Nat.add_sub_cancel, List.drop_length]
    exact List.append_nil rep
  | cons a s' ih =>
    intro honly
    have hlen1 : ((a :: s') ++ pat).length = s'.length + pat.length + 1 := by
      simp
    have hnp : pat.isPrefixOf (a :: (s' ++ pat)) = false := by
      rw [Bool.eq_false_iff]
      intro hp
      have h0 := honly 0 (by rw [hlen1]; omega) (by simpa using hp)
      rw [hlen1] at h0
      omega
    have honly' : onlyFinalMatch pat (s' ++ pat) := by
      intro i hi hp
      have hib : i + 1 < ((a :: s') ++ pat).length := by
        rw [hlen1]
        simp only [List.length_append] at hi
        omega
      have hstep := honly (i + 1) hib (by simpa using hp)
      rw [hlen1] at hstep
      simp only [List.length_append]
      omega
    simp only [List.cons_append, replaceAux, hnp, Bool.false_eq_true, if_false]
    rw [ih honly']

theorem suffix_eq_of_len {l₁ l₂ l : List Char} (h1 : l₁ <:+ l) (h2 : l₂ <:+ l)
    (hlen : l₁.length = l₂.length) : l₁ = l₂ := by
  obtain ⟨t1, rfl⟩ := h1
  obtain ⟨t2, ht⟩ := h2
  have hlent : t2.length = t1.length := by
    have hl := congrArg List.length ht
    simp only [List.length_append] at hl
    omega
  exact ((List.append_inj ht hlent).2).symm ▸ rfl

theorem basenameL_suffix (l : List Char) : basenameL l <:+ l := by
  unfold basenameL
  rw [← List.reverse_prefix]
  simp only [List.reverse_reverse]
  exact List.takeWhile_prefix _

theorem takeWhile_append_all (p : Char → Bool) (l₁ l₂ : List Char)
    (h : ∀ a ∈ l₁, p a = true) : (l₁ ++ l₂).takeWhile p = l₁ ++ l₂.takeWhile p := by
  induction l₁ with
  | nil => simp
  | cons a t ih =>
    simp only [List.cons_append, List.takeWhile_cons, h a (by simp), if_true]
    rw [ih (fun b hb => h b (by simp [hb]))]

theorem endsWith_basename {s pat : String} (h : strEndsWith s pat = true)
    (hslash : ∀ a ∈ pat.data, a ≠ '/') : strEndsWith (basename s) pat = true := by
  unfold strEndsWith at h ⊢
  rw [List.isSuffixOf_iff_suffix] at h ⊢
  obtain ⟨t, ht⟩ := h
  show pat.data <:+ basenameL s.data
  unfold basenameL
  rw [← ht, List.reverse_append]
  rw [takeWhile_append_all _ pat.data.reverse t.reverse
    (fun a ha => decide_eq_true (hslash a (List.mem_reverse.mp ha)))]
  rw [List.reverse_append, List.reverse_reverse]
  exact ⟨_, rfl⟩

theorem endsWith_of_basename {s pat : String} (h : strEndsWith (basename s) pat = true) :
    strEndsWith s pat = true := by
  unfold strEndsWith at h ⊢
  rw [List.isSuffixOf_iff_suffix] at h ⊢
  exact List.IsSuffix.trans h (basenameL_suffix s.data)

theorem endsWith_L_not_P {s : String} (h : strEndsWith s "_L.rck" = true) :
    strEndsWith s "_P.rck" = false := by
  rw [Bool.eq_false_iff]
  intro hp
  unfold strEndsWith at h hp
  rw [List.isSuffixOf_iff_suffix] at h hp
  have heq := suffix_eq_of_len h hp (by decide)
  exact absurd heq (by decide)

theorem endsWith_P_not_L {s : String} (h : strEndsWith s "_P.rck" = true) :
    strEndsWith s "_L.rck" = false := by
  rw [Bool.eq_false_iff]
  intro hl
  unfold strEndsWith at h hl
  rw [List.isSuffixOf_iff_suffix] at h hl
  have heq := suffix_eq_of_len h hl (by decide)
  exact absurd heq (by decide)

theorem claimClassify_toOption (fs : String → Option RawRecord) (path f1 f2 : String) :
    (claimClassify fs path f1).toOption = (claimClassify fs path f2).toOption := by
  unfold claimClassify
  cases fs path with
  | none => rfl
  | some r =>
    dsimp only
    cases find_int "Category.0.Id" r with
    | some id =>
      dsimp only
      split_ifs <;> rfl
    | none =>
      dsimp only
      split_ifs <;> rfl

/-- C6 (amended): for a non-carrier-prefixed path in which the orientation
suffix occurs only as the final six characters, and whose canonical
(stripped) name ends in neither orientation suffix and is itself
non-carrier-prefixed, the suffixed and un-suffixed names resolve to the
same classification outcome (same resource kind, or both failing). -/
theorem C6_amended_orientation_roundtrip (fs : String → Option RawRecord) (s : String) :
    (onlyFinalMatch "_L.rck".data (s ++ "_L.rck").data →
     strEndsWith (s ++ ".rck") "_L.rck" = false →
     strEndsWith (s ++ ".rck") "_P.rck" = false →
     notCarrierPrefixed (basename (s ++ "_L.rck")) →
     notCarrierPrefixed (basename (s ++ ".rck")) →
     (get_resource_type fs (s ++ "_L.rck")).toOption =
       (get_resource_type fs (s ++ ".rck")).toOption) ∧
    (onlyFinalMatch "_P.rck".data (s ++ "_P.rck").data →
     strEndsWith (s ++ ".rck") "_L.rck" = false →
     strEndsWith (s ++ ".rck") "_P.rck" = false →
     notCarrierPrefixed (basename (s ++ "_P.rck")) →
     notCarrierPrefixed (basename (s ++ ".rck")) →
     (get_resource_type fs (s ++ "_P.rck")).toOption =
       (get_resource_type fs (s ++ ".rck")).toOption) := by
  constructor
  · intro honly hcL hcP hpre1 hpre2
    have hpd : (s ++ "_L.rck").data = s.data ++ "_L.rck".data := str_data_append s "_L.rck"
    have hendsL : strEndsWith (s ++ "_L.rck") "_L.rck" = true := by
      unfold strEndsWith
      rw [List.isSuffixOf_iff_suffix, hpd]
      exact ⟨s.data, rfl⟩
    have hrep : pyReplace (s ++ "_L.rck") "_L.rck" ".rck" = s ++ ".rck" := by
      apply str_ext
      show replaceAux "_L.rck".data ".rck".data (s ++ "_L.rck").data = (s ++ ".rck").data
      rw [hpd, str_data_append s ".rck"]
      exact replaceAux_only_final "_L.rck".data ".rck".data (by decide) s.data (hpd ▸ honly)
    have hnotP : strEndsWith (s ++ "_L.rck") "_P.rck" = false := endsWith_L_not_P hendsL
    have hbnotP : strEndsWith (basename (s ++ "_L.rck")) "_P.rck" = false := by
      rw [Bool.eq_false_iff]
      intro hb
      have h2 := endsWith_of_basename hb
      rw [hnotP] at h2
      exact absurd h2 (by simp)
    have hnormL : normalizeOrientation (s ++ "_L.rck") = s ++ ".rck" := by
      unfold normalizeOrientation
      simp only [hendsL, hbnotP, Bool.false_eq_true, if_false, if_true]
      exact hrep
    have hbnotP2 : strEndsWith (basename (s ++ ".rck")) "_P.rck" = false := by
      rw [Bool.eq_false_iff]
      intro hb
      have h2 := endsWith_of_basename hb
      rw [hcP] at h2
      exact absurd h2 (by simp)
    have hnormC : normalizeOrientation (s ++ ".rck") = s ++ ".rck" := by
      unfold normalizeOrientation
      simp only [hcL, hbnotP2, Bool.false_eq_true, if_false]
    obtain ⟨hp1, hp2, hp3, hp4⟩ := hpre1
    obtain ⟨hq1, hq2, hq3, hq4⟩ := hpre2
    rw [classify_noncarrier fs (s ++ "_L.rck") hp1 hp2 hp3 hp4,
      classify_noncarrier fs (s ++ ".rck") hq1 hq2 hq3 hq4, hnormL, hnormC]
    exact claimClassify_toOption fs (s ++ ".rck") (basename (s ++ "_L.rck"))
      (basename (s ++ ".rck"))
  · intro honly hcL hcP hpre1 hpre2
    have hpd : (s ++ "_P.rck").data = s.data ++ "_P.rck".data := str_data_append s "_P.rck"
    have hendsP : strEndsWith (s ++ "_P.rck") "_P.rck" = true := by
      unfold strEndsWith
      rw [List.isSuffixOf_iff_suffix, hpd]
      exact ⟨s.data, rfl⟩
    have hnotL : strEndsWith (s ++ "_P.rck") "_L.rck" = false := endsWith_P_not_L hendsP
    have hbP : strEndsWith (basename (s ++ "_P.rck")) "_P.rck" = true :=
      endsWith_basename hendsP (by decide)
    have hrep : pyReplace (s ++ "_P.rck") "_P.rck" ".rck" = s ++ ".rck" := by
      apply str_ext
      show replaceAux "_P.rck".data ".rck".data (s ++ "_P.rck").data = (s ++ ".rck").data
      rw [hpd, str_data_append s ".rck"]
      exact replaceAux_only_final "_P.rck".data ".rck".data (by decide) s.data (hpd ▸ honly)
    have hnormP : normalizeOrientation (s ++ "_P.rck") = s ++ ".rck" := by
      unfold normalizeOrientation
      simp only [hnotL, hbP, Bool.false_eq_true, if_false, if_true]
      exact hrep
    have hbnotP2 : strEndsWith (basename (s ++ ".rck")) "_P.rck" = false := by
      rw [Bool.eq_false_iff]
      intro hb
      have h2 := endsWith_of_basename hb
      rw [hcP] at h2
      exact absurd h2 (by simp)
    have hnormC : normalizeOrientation (s ++ ".rck") = s ++ ".rck" := by
      unfold normalizeOrientation
      simp only [hcL, hbnotP2, Bool.false_eq_true, if_false]
    obtain ⟨hp1, hp2, hp3, hp4⟩ := hpre1
    obtain ⟨hq1, hq2, hq3, hq4⟩ := hpre2
    rw [classify_noncarrier fs (s ++ "_P.rck") hp1 hp2 hp3 hp4,
      classify_noncarrier fs (s ++ ".rck") hq1 hq2 hq3 hq4, hnormP, hnormC]
    exact claimClassify_toOption fs (s ++ ".rck") (basename (s ++ "_P.rck"))
      (basename (s ++ ".rck"))

/-- Witness for C6's amended claim on the well-behaved names `Foo_L.rck`
and `Bar_P.rck`. -/
theorem C6_amended_orientation_roundtrip_witness :
    (get_resource_type (fun _ => none) ("Foo" ++ "_L.rck")).toOption =
      (get_resource_type (fun _ => none) ("Foo" ++ ".rck")).toOption ∧
    (get_resource_type (fun _ => none) ("Bar" ++ "_P.rck")).toOption =
      (get_resource_type (fun _ => none) ("Bar" ++ ".rck")).toOption :=
  ⟨(C6_amended_orientation_roundtrip (fun _ => none) "Foo").1
      (by unfold onlyFinalMatch; decide) (by decide) (by decide)
      (by unfold notCarrierPrefixed; decide) (by unfold notCarrierPrefixed; decide),
   (C6_amended_orientation_roundtrip (fun _ => none) "Bar").2
      (by unfold onlyFinalMatch; decide) (by decide) (by decide)
      (by unfold notCarrierPrefixed; decide) (by unfold notCarrierPrefixed; decide)⟩

theorem sitesLoop_succ (r : RawRecord) (i n : ℕ) (acc : List Coord) (w h : Option ℚ) :
    sitesLoop r i (n + 1) acc w h = (do
      let x ← fFloat ("Site." ++ toString i ++ ".X") r
      let y ← fFloat ("Site." ++ toString i ++ ".Y") r
      let z ← fFloat ("Site." ++ toString i ++ ".Z") r
      let site_width ← fFloat ("Site." ++ toString i ++ ".Dx") r
      let site_height ← fFloat ("Site." ++ toString i ++ ".Dy") r
      sitesLoop r (i + 1) n (acc ++ [(⟨x, y, z⟩ : Coord)]) (some site_width)
        (some site_height)) := rfl

theorem sitesLoop_eq (r : RawRecord) (fx fy fz fw fh : ℕ → ℚ) :
    ∀ k i acc,
      (∀ j, j < i + (k + 1) → i ≤ j →
        find_float ("Site." ++ toString j ++ ".X") r = some (fx j) ∧
        find_float ("Site." ++ toString j ++ ".Y") r = some (fy j) ∧
        find_float ("Site." ++ toString j ++ ".Z") r = some (fz j) ∧
        find_float ("Site." ++ toString j ++ ".Dx") r = some (fw j) ∧
        find_float ("Site." ++ toString j ++ ".Dy") r = some (fh j)) →
      ∀ w h, sitesLoop r i (k + 1) acc w h =
        Except.ok (acc ++ (List.range (k + 1)).map
            (fun j => (⟨fx (i + j), fy (i + j), fz (i + j)⟩ : Coord)),
          some (fw (i + k)), some (fh (i + k))) := by
  intro k
  induction k with
  | zero =>
    intro i acc hj w h
    have hfind := hj i (by omega) (by omega)
    rw [sitesLoop_succ]
    simp only [fFloat, hfind.1, hfind.2.1, hfind.2.2.1, hfind.2.2.2.1,
      hfind.2.2.2.2, exc_bind_ok]
    simp [sitesLoop, List.range_succ]
  | succ k ih =>
    intro i acc hj w h
    have hfind := hj i (by omega) (by omega)
    rw [sitesLoop_succ]
    simp only [fFloat, hfind.1, hfind.2.1, hfind.2.2.1, hfind.2.2.2.1,
      hfind.2.2.2.2, exc_bind_ok]
    rw [ih (i + 1) (acc ++ [(⟨fx i, fy i, fz i⟩ : Coord)])
      (fun j hj1 hj2 => hj j (by omega) (by omega)) (some (fw i)) (some (fh i))]
    have e1 : i + 1 + k = i + (k + 1) := by omega
    rw [e1]
    simp [List.range_succ_eq_map, List.map_map, Function.comp, Nat.succ_eq_add_one,
      Nat.add_assoc, Nat.add_comm, Nat.add_left_comm]

theorem insertY_length (c : Coord) (l : List Coord) :
    (insertY c l).length = l.length + 1 := by
  induction l with
  | nil => rfl
  | cons d ds ih =>
    unfold insertY
    split
    · simp [ih]
    · simp

theorem sortByY_length (l : List Coord) : (sortByY l).length = l.length := by
  induction l with
  | nil => rfl
  | cons x xs ih =>
    unfold sortByY
    rw [insertY_length, ih]
    simp

theorem flexFilterLoop_eq (r : RawRecord) (vis : ℕ → Int) :
    ∀ (l : List Coord) (i : ℕ),
      (∀ p, p < i + l.length → i ≤ p →
        find_int ("Site." ++ toString p ++ ".Visible") r = some (vis p)) →
      flexFilterLoop r i l = Except.ok (visFilter vis i l) := by
  intro l
  induction l with
  | nil =>
    intro i h
    simp [flexFilterLoop, visFilter]
  | cons s rest ih =>
    intro i h
    have hv := h i (by simp only [List.length_cons]; omega) (by omega)
    simp only [flexFilterLoop, fInt, hv, exc_bind_ok]
    rw [ih (i + 1) (fun p h1 h2 => h p (by simp only [List.length_cons] at h1 ⊢; omega)
      (by omega))]
    by_cases hvis : vis i = 1
    · simp [visFilter, hvis, exc_bind_ok]
    · simp [visFilter, hvis, exc_bind_ok]

theorem create_plate_carrier_for_writing_eq (fs : String → Option RawRecord)
    (filepath : String) (c : RawRecord) (fx fy fz fw fh : ℕ → ℚ) (k : ℕ) (cnt : Int)
    (sx sy sz : ℚ) (dsc : String)
    (hc : fs filepath = some c)
    (hcnt : c.siteCnt1 = some cnt)
    (hton : cnt.toNat = k + 1)
    (hsite : ∀ j, j < k + 2 → 1 ≤ j →
      find_float ("Site." ++ toString j ++ ".X") c = some (fx j) ∧
      find_float ("Site." ++ toString j ++ ".Y") c = some (fy j) ∧
      find_float ("Site." ++ toString j ++ ".Z") c = some (fz j) ∧
      find_float ("Site." ++ toString j ++ ".Dx") c = some (fw j) ∧
      find_float ("Site." ++ toString j ++ ".Dy") c = some (fh j))
    (h1 : find_float "Dim.Dx" c = some sx)
    (h2 : find_float "Dim.Dy" c = some sy)
    (h3 : find_float "Dim.Dz" c = some sz)
    (h4 : find_string "Description" c = some dsc) :
    create_plate_carrier_for_writing fs filepath =
      Except.ok (⟨stem (basename filepath), sx, sy, sz,
        sortByY ((List.range (k + 1)).map
          (fun j => (⟨fx (1 + j), fy (1 + j), fz (1 + j)⟩ : Coord))),
        fw (1 + k), fh (1 + k), stem (basename filepath)⟩, dsc) := by
  have hloop := sitesLoop_eq c fx fy fz fw fh k 1 []
    (fun j hj1 hj2 => hsite j (by omega) (by omega)) none none
  simp only [create_plate_carrier_for_writing, openFile, siteCountOf1, fFloat, fStr,
    loopVar, hc, hcnt, hton, hloop, h1, h2, h3, h4, exc_bind_ok, List.nil_append]

theorem create_tip_carrier_for_writing_eq (fs : String → Option RawRecord)
    (filepath : String) (c : RawRecord) (fx fy fz fw fh : ℕ → ℚ) (k : ℕ) (cnt : Int)
    (sx sy sz : ℚ) (dsc : String)
    (hc : fs filepath = some c)
    (hcnt : c.siteCnt1 = some cnt)
    (hton : cnt.toNat = k + 1)
    (hsite : ∀ j, j < k + 2 → 1 ≤ j →
      find_float ("Site." ++ toString j ++ ".X") c = some (fx j) ∧
      find_float ("Site." ++ toString j ++ ".Y") c = some (fy j) ∧
      find_float ("Site." ++ toString j ++ ".Z") c = some (fz j) ∧
      find_float ("Site." ++ toString j ++ ".Dx") c = some (fw j) ∧
      find_float ("Site." ++ toString j ++ ".Dy") c = some (fh j))
    (h1 : find_float "Dim.Dx" c = some sx)
    (h2 : find_float "Dim.Dy" c = some sy)
    (h3 : find_float "Dim.Dz" c = some sz)
    (h4 : find_string "Description" c = some dsc) :
    create_tip_carrier_for_writing fs filepath =
      Except.ok (⟨stem (basename filepath), sx, sy, sz,
        sortByY ((List.range (k + 1)).map
          (fun j => (⟨fx (1 + j), fy (1 + j), fz (1 + j)⟩ : Coord))),
        fw (1 + k), fh (1 + k), stem (basename filepath)⟩, dsc) := by
  have hloop := sitesLoop_eq c fx fy fz fw fh k 1 []
    (fun j hj1 hj2 => hsite j (by omega) (by omega)) none none
  simp only [create_tip_carrier_for_writing, openFile, siteCountOf1, fFloat, fStr,
    loopVar, hc, hcnt, hton, hloop, h1, h2, h3, h4, exc_bind_ok, List.nil_append]

theorem create_flex_carrier_for_writing_eq (fs : String → Option RawRecord)
    (filepath : String) (c : RawRecord) (fx fy fz fw fh : ℕ → ℚ) (vis : ℕ → Int)
    (k : ℕ) (cnt : Int) (sx sy sz : ℚ) (dsc : String)
    (hc : fs filepath = some c)
    (hcnt : c.siteCnt2 = some cnt)
    (hton : cnt.toNat = k + 1)
    (hsite : ∀ j, j < k + 2 → 1 ≤ j →
      find_float ("Site." ++ toString j ++ ".X") c = some (fx j) ∧
      find_float ("Site." ++ toString j ++ ".Y") c = some (fy j) ∧
      find_float ("Site." ++ toString j ++ ".Z") c = some (fz j) ∧
      find_float ("Site." ++ toString j ++ ".Dx") c = some (fw j) ∧
      find_float ("Site." ++ toString j ++ ".Dy") c = some (fh j))
    (hvis : ∀ p, p < k + 1 → find_int ("Site." ++ toString p ++ ".Visible") c = some (vis p))
    (h1 : find_float "Dim.Dx" c = some sx)
    (h2 : find_float "Dim.Dy" c = some sy)
    (h3 : find_float "Dim.Dz" c = some sz)
    (h4 : find_string "Description" c = some dsc) :
    create_flex_carrier_for_writing fs filepath =
      Except.ok (⟨stem (basename filepath), sx, sy, sz,
        visFilter vis 0 (sortByY ((List.range (k + 1)).map
          (fun j => (⟨fx (1 + j), fy (1 + j), fz (1 + j)⟩ : Coord)))),
        fw (1 + k), fh (1 + k), stem (basename filepath)⟩, dsc) := by
  have hloop := sitesLoop_eq c fx fy fz fw fh k 1 []
    (fun j hj1 hj2 => hsite j (by omega) (by omega)) none none
  have hfil := flexFilterLoop_eq c vis
    (sortByY ((List.range (k + 1)).map
      (fun j => (⟨fx (1 + j), fy (1 + j), fz (1 + j)⟩ : Coord)))) 0
    (fun p hp1 hp2 => hvis p
      (by simp only [sortByY_length, List.length_map, List.length_range,
        Nat.zero_add] at hp1; omega))
  simp only [create_flex_carrier_for_writing, openFile, siteCountOf2, fFloat, fStr,
    loopVar, hc, hcnt, hton, hloop, hfil, h1, h2, h3, h4, exc_bind_ok, List.nil_append]

/-- C10: in every carrier parser, although a width (`Site.j.Dx`) and height
(`Site.j.Dy`) are read for every site index `j` in `1..count`, every site of
the assembled carrier is sized by the highest-indexed source site
(`Site.count.Dx` / `Site.count.Dy`): the first three conjuncts show the
homogeneous site size of the plate, tip and MFX carriers equals
`(fw (count), fh (count))` while the lower-indexed widths and heights enter
only as arbitrary present values `fw j, fh j (j < count)` that do not occur
in the result; the last conjunct states the independence explicitly — two
parses whose records agree on everything consulted except the lower-indexed
widths/heights produce identical carriers. -/
theorem C10_site_size_from_last_site :
    (∀ (fs : String → Option RawRecord) (filepath : String) (c : RawRecord)
      (fx fy fz fw fh : ℕ → ℚ) (k : ℕ) (cnt : Int) (sx sy sz : ℚ) (dsc : String),
      fs filepath = some c →
      c.siteCnt1 = some cnt →
      cnt.toNat = k + 1 →
      (∀ j, j < k + 2 → 1 ≤ j →
        find_float ("Site." ++ toString j ++ ".X") c = some (fx j) ∧
        find_float ("Site." ++ toString j ++ ".Y") c = some (fy j) ∧
        find_float ("Site." ++ toString j ++ ".Z") c = some (fz j) ∧
        find_float ("Site." ++ toString j ++ ".Dx") c = some (fw j) ∧
        find_float ("Site." ++ toString j ++ ".Dy") c = some (fh j)) →
      find_float "Dim.Dx" c = some sx →
      find_float "Dim.Dy" c = some sy →
      find_float "Dim.Dz" c = some sz →
      find_string "Description" c = some dsc →
      carrierSiteSizeOf (create_plate_carrier_for_writing fs filepath) =
        some (fw (k + 1), fh (k + 1))) ∧
    (∀ (fs : String → Option RawRecord) (filepath : String) (c : RawRecord)
      (fx fy fz fw fh : ℕ → ℚ) (k : ℕ) (cnt : Int) (sx sy sz : ℚ) (dsc : String),
      fs filepath = some c →
      c.siteCnt1 = some cnt →
      cnt.toNat = k + 1 →
      (∀ j, j < k + 2 → 1 ≤ j →
        find_float ("Site." ++ toString j ++ ".X") c = some (fx j) ∧
        find_float ("Site." ++ toString j ++ ".Y") c = some (fy j) ∧
        find_float ("Site." ++ toString j ++ ".Z") c = some (fz j) ∧
        find_float ("Site." ++ toString j ++ ".Dx") c = some (fw j) ∧
        find_float ("Site." ++ toString j ++ ".Dy") c = some (fh j)) →
      find_float "Dim.Dx" c = some sx →
      find_float "Dim.Dy" c = some sy →
      find_float "Dim.Dz" c = some sz →
      find_string "Description" c = some dsc →
      carrierSiteSizeOf (create_tip_carrier_for_writing fs filepath) =
        some (fw (k + 1), fh (k + 1))) ∧
    (∀ (fs : String → Option RawRecord) (filepath : String) (c : RawRecord)
      (fx fy fz fw fh : ℕ → ℚ) (vis : ℕ → Int) (k : ℕ) (cnt : Int) (sx sy sz : ℚ)
      (dsc : String),
      fs filepath = some c →
      c.siteCnt2 = some cnt →
      cnt.toNat = k + 1 →
      (∀ j, j < k + 2 → 1 ≤ j →
        find_float ("Site." ++ toString j ++ ".X") c = some (fx j) ∧
        find_float ("Site." ++ toString j ++ ".Y") c = some (fy j) ∧
        find_float ("Site." ++ toString j ++ ".Z") c = some (fz j) ∧
        find_float ("Site." ++ toString j ++ ".Dx") c = some (fw j) ∧
        find_float ("Site." ++ toString j ++ ".Dy") c = some (fh j)) →
      (∀ p, p < k + 1 →
        find_int ("Site." ++ toString p ++ ".Visible") c = some (vis p)) →
      find_float "Dim.Dx" c = some sx →
      find_float "Dim.Dy" c = some sy →
      find_float "Dim.Dz" c = some sz →
      find_string "Description" c = some dsc →
      carrierSiteSizeOf (create_flex_carrier_for_writing fs filepath) =
        some (fw (k + 1), fh (k + 1))) ∧
    (∀ (fs fs' : String → Option RawRecord) (filepath : String) (c c' : RawRecord)
      (fx fy fz fw fh fw' fh' : ℕ → ℚ) (k : ℕ) (cnt : Int) (sx sy sz : ℚ) (dsc : String),
      fs filepath = some c →
      c.siteCnt1 = some cnt →
      cnt.toNat = k + 1 →
      (∀ j, j < k + 2 → 1 ≤ j →
        find_float ("Site." ++ toString j ++ ".X") c = some (fx j) ∧
        find_float ("Site." ++ toString j ++ ".Y") c = some (fy j) ∧
        find_float ("Site." ++ toString j ++ ".Z") c = some (fz j) ∧
        find_float ("Site." ++ toString j ++ ".Dx") c = some (fw j) ∧
        find_float ("Site." ++ toString j ++ ".Dy") c = some (fh j)) →
      find_float "Dim.Dx" c = some sx →
      find_float "Dim.Dy" c = some sy →
      find_float "Dim.Dz" c = some sz →
      find_string "Description" c = some dsc →
      fs' filepath = some c' →
      c'.siteCnt1 = some cnt →
      (∀ j, j < k + 2 → 1 ≤ j →
        find_float ("Site." ++ toString j ++ ".X") c' = some (fx j) ∧
        find_float ("Site." ++ toString j ++ ".Y") c' = some (fy j) ∧
        find_float ("Site." ++ toString j ++ ".Z") c' = some (fz j) ∧
        find_float ("Site." ++ toString j ++ ".Dx") c' = some (fw' j) ∧
        find_float ("Site." ++ toString j ++ ".Dy") c' = some (fh' j)) →
      find_float "Dim.Dx" c' = some sx →
      find_float "Dim.Dy" c' = some sy →
      find_float "Dim.Dz" c' = some sz →
      find_string "Description" c' = some dsc →
      fw (k + 1) = fw' (k + 1) →
      fh (k + 1) = fh' (k + 1) →
      create_plate_carrier_for_writing fs filepath =
        create_plate_carrier_for_writing fs' filepath) := by
  refine ⟨?_, ?_, ?_, ?_⟩
  · intro fs filepath c fx fy fz fw fh k cnt sx sy sz dsc hc hcnt hton hsite h1 h2 h3 h4
    rw [create_plate_carrier_for_writing_eq fs filepath c fx fy fz fw fh k cnt sx sy sz dsc
      hc hcnt hton hsite h1 h2 h3 h4]
    rw [Nat.add_comm 1 k]
    rfl
  · intro fs filepath c fx fy fz fw fh k cnt sx sy sz dsc hc hcnt hton hsite h1 h2 h3 h4
    rw [create_tip_carrier_for_writing_eq fs filepath c fx fy fz fw fh k cnt sx sy sz dsc
      hc hcnt hton hsite h1 h2 h3 h4]
    rw [Nat.add_comm 1 k]
    rfl
  · intro fs filepath c fx fy fz fw fh vis k cnt sx sy sz dsc hc hcnt hton hsite hvis
      h1 h2 h3 h4
    rw [create_flex_carrier_for_writing_eq fs filepath c fx fy fz fw fh vis k cnt sx sy sz
      dsc hc hcnt hton hsite hvis h1 h2 h3 h4]
    rw [Nat.add_comm 1 k]
    rfl
  · intro fs fs' filepath c c' fx fy fz fw fh fw' fh' k cnt sx sy sz dsc hc hcnt hton hsite
      h1 h2 h3 h4 hc' hcnt' hsite' h1' h2' h3' h4' hw hh
    rw [create_plate_carrier_for_writing_eq fs filepath c fx fy fz fw fh k cnt sx sy sz dsc
      hc hcnt hton hsite h1 h2 h3 h4,
      create_plate_carrier_for_writing_eq fs' filepath c' fx fy fz fw' fh' k cnt sx sy sz dsc
      hc' hcnt' hton hsite' h1' h2' h3' h4']
    rw [Nat.add_comm 1 k, hw, hh]

/-- Witness for C10 on the two-site carrier records `rCar`/`rCar'`: both
assembled carriers use site 2's width/height (97, 130), the MFX carrier of
`recC2` uses (12, 12), and changing site 1's width/height (95, 120 to
40, 41) does not change the parsed plate carrier at all. -/
theorem C10_site_size_from_last_site_witness :
    carrierSiteSizeOf (create_plate_carrier_for_writing fsAll "PLT_CAR_TEST.tml") =
      some (97, 130) ∧
    carrierSiteSizeOf (create_tip_carrier_for_writing fsAll "TIP_CAR_TEST.tml") =
      some (97, 130) ∧
    carrierSiteSizeOf (create_flex_carrier_for_writing fsAll "MFX_CAR_TEST2.tml") =
      some (12, 12) ∧
    create_plate_carrier_for_writing fsAll "PLT_CAR_TEST.tml" =
      create_plate_carrier_for_writing fsAll' "PLT_CAR_TEST.tml" := by
  refine ⟨?_, ?_, ?_, ?_⟩
  · exact C10_site_size_from_last_site.1 fsAll "PLT_CAR_TEST.tml" rCar
      (fun _ => 10) (fun j => if j = 1 then 20 else 115) (fun _ => 5)
      (fun j => if j = 1 then 95 else 97) (fun j => if j = 1 then 120 else 130)
      1 2 135 497 130 "Test carrier" rfl rfl rfl (by decide) rfl rfl rfl rfl
  · exact C10_site_size_from_last_site.2.1 fsAll "TIP_CAR_TEST.tml" rCar
      (fun _ => 10) (fun j => if j = 1 then 20 else 115) (fun _ => 5)
      (fun j => if j = 1 then 95 else 97) (fun j => if j = 1 then 120 else 130)
      1 2 135 497 130 "Test carrier" rfl rfl rfl (by decide) rfl rfl rfl rfl
  · exact C10_site_size_from_last_site.2.2.1 fsAll "MFX_CAR_TEST2.tml" recC2
      (fun j => if j = 1 then 0 else 5) (fun j => if j = 1 then 1 else 2) (fun _ => 0)
      (fun j => if j = 1 then 10 else 12) (fun j => if j = 1 then 10 else 12)
      (fun p => if p = 0 then 1 else 0)
      1 2 100 200 50 "MFX test carrier" rfl rfl rfl (by decide) (by decide)
      rfl rfl rfl rfl
  · exact C10_site_size_from_last_site.2.2.2 fsAll fsAll' "PLT_CAR_TEST.tml" rCar rCar'
      (fun _ => 10) (fun j => if j = 1 then 20 else 115) (fun _ => 5)
      (fun j => if j = 1 then 95 else 97) (fun j => if j = 1 then 120 else 130)
      (fun j => if j = 1 then 40 else 97) (fun j => if j = 1 then 41 else 130)
      1 2 135 497 130 "Test carrier" rfl rfl rfl (by decide) rfl rfl rfl rfl
      rfl rfl (by decide) rfl rfl rfl rfl rfl rfl
